import Mathlib

/-!
Verification development for the Austin-ATAK-Integrations service.

The Python source under `app/` is shallowly embedded here:

* loosely-typed JSON records (`dict[str, Any]`) become association lists of
  `PyVal` values (strings, integers, null); Python truthiness and `float()`
  parseability are modelled explicitly.  JSON numbers are modelled as
  integers: the municipal feeds deliver coordinates as strings, and no claim
  depends on the value of a non-integer number.
* the SQLite `seen_incidents` table becomes an association list keyed by the
  generated incident id; timestamps stored by the code are kept as the ISO
  strings the code writes (SQLite compares TEXT columns byte-wise, which is
  `String` order here).
* `datetime` values are modelled by a calendar structure plus epoch-microsecond
  arithmetic; `datetime.fromisoformat` (CPython 3.10 grammar) is embedded as a
  parser returning the calendar fields and the optional UTC offset.
* the CoT XML builder is split into the event structure the Python code puts
  into the `ElementTree` (already `html.escape`d by the source) and the
  `ElementTree` serializer (`renderCot`), which applies the serializer's own
  attribute/text escaping exactly as CPython's `ElementTree` does.
-/

/-- A loosely-typed JSON value as delivered by the SODA feeds.  Numbers are
modelled as integers (see module comment). -/
inductive PyVal where
  | vstr (s : String)
  | vnum (n : Int)
  | vnull
deriving DecidableEq, Repr

/-- An incident record: a Python `dict[str, Any]` in insertion order. -/
abbrev PyRec := List (String × PyVal)

/-- `d.get(k)`: `None` when the key is absent. -/
def pyGet (d : PyRec) (k : String) : PyVal :=
  (List.lookup k d).getD PyVal.vnull

/-- `d.get(k, dflt)`: the default applies only when the key is absent. -/
def pyGetD (d : PyRec) (k : String) (dflt : PyVal) : PyVal :=
  (List.lookup k d).getD dflt

/-- Python truthiness of a value: empty strings, zero and `None` are falsy. -/
def PyVal.truthy : PyVal → Bool
  | .vstr s => !(s == "")
  | .vnum n => !(n == 0)
  | .vnull => false

/-- Python `a or b`. -/
def pyOr (a b : PyVal) : PyVal := if a.truthy then a else b

/-- Python `str(v)` (integers and strings; no claim evaluates it on other
values). -/
def pyStr : PyVal → String
  | .vstr s => s
  | .vnum n => toString n
  | .vnull => "None"

/-- ASCII whitespace stripped by `float(str)`. -/
def isPyWs (c : Char) : Bool :=
  c == ' ' || c == '\t' || c == '\n' || c == '\r' ||
  c == Char.ofNat 11 || c == Char.ofNat 12

/-- Optional sign in a float literal. -/
def dropSign : List Char → List Char
  | '+' :: r => r
  | '-' :: r => r
  | r => r

/-- Exponent suffix of a float literal (empty, or `e`/`E` sign digits). -/
def floatExpOk : List Char → Bool
  | [] => true
  | 'e' :: r => let r' := dropSign r; !r'.isEmpty && r'.all Char.isDigit
  | 'E' :: r => let r' := dropSign r; !r'.isEmpty && r'.all Char.isDigit
  | _ => false

/-- Mantissa-and-exponent body of a float literal. -/
def floatBodyOk (l : List Char) : Bool :=
  let ip := l.takeWhile Char.isDigit
  let r1 := l.dropWhile Char.isDigit
  match r1 with
  | '.' :: r2 =>
      let fp := r2.takeWhile Char.isDigit
      let r3 := r2.dropWhile Char.isDigit
      (!ip.isEmpty || !fp.isEmpty) && floatExpOk r3
  | _ => !ip.isEmpty && floatExpOk r1

/-- `inf` / `infinity` / `nan`, case-insensitively. -/
def floatNamedOk (l : List Char) : Bool :=
  let s := String.mk (l.map Char.toLower)
  s == "inf" || s == "infinity" || s == "nan"

/-- Does CPython `float(s)` succeed?  (ASCII grammar; PEP-515 underscores and
non-ASCII digits are outside the model.) -/
def isPyFloatLit (s : String) : Bool :=
  let core := dropSign ((s.data.dropWhile isPyWs).reverse.dropWhile isPyWs).reverse
  floatNamedOk core || floatBodyOk core

/-- Does `float(v)` succeed without raising `ValueError`/`TypeError`? -/
def pyFloatOk : PyVal → Bool
  | .vnum _ => true
  | .vstr s => isPyFloatLit s
  | .vnull => false

/-- `TrafficFeedPoller._validate_incident`: coordinates must be truthy and
float-parseable, and `event_id or id` must be truthy. -/
def validate_incident_traffic (d : PyRec) : Bool :=
  let lat := pyOr (pyGet d "latitude") (pyGet d "lat")
  let lon := pyOr (pyGet d "longitude") (pyGet d "lon")
  if !lat.truthy || !lon.truthy then false
  else if !(pyFloatOk lat && pyFloatOk lon) then false
  else (pyOr (pyGet d "event_id") (pyGet d "id")).truthy

/-- `FireFeedPoller._validate_incident`: coordinates must be truthy and
float-parseable, and `traffic_report_id` must be truthy. -/
def validate_incident_fire (d : PyRec) : Bool :=
  let lat := pyGet d "latitude"
  let lon := pyGet d "longitude"
  if !lat.truthy || !lon.truthy then false
  else if !(pyFloatOk lat && pyFloatOk lon) then false
  else (pyGet d "traffic_report_id").truthy

/-- UTF-8 encoding of one character. -/
def utf8Char (c : Char) : List Nat :=
  let n := c.toNat
  if n < 128 then [n]
  else if n < 2048 then [192 ||| (n >>> 6), 128 ||| (n &&& 63)]
  else if n < 65536 then
    [224 ||| (n >>> 12), 128 ||| ((n >>> 6) &&& 63), 128 ||| (n &&& 63)]
  else
    [240 ||| (n >>> 18), 128 ||| ((n >>> 12) &&& 63),
     128 ||| ((n >>> 6) &&& 63), 128 ||| (n &&& 63)]

/-- UTF-8 byte sequence of a string, as `str.encode()` produces. -/
def utf8Bytes (s : String) : List Nat :=
  s.data.foldr (fun c acc => utf8Char c ++ acc) []

/-- Lower-case hex digit. -/
def hexDigitLower (n : Nat) : Char :=
  if n < 10 then Char.ofNat (48 + n) else Char.ofNat (87 + n)

/-- Four lower-case hex digits (for `\uXXXX` escapes). -/
def hex4 (n : Nat) : List Char :=
  [hexDigitLower ((n >>> 12) &&& 15), hexDigitLower ((n >>> 8) &&& 15),
   hexDigitLower ((n >>> 4) &&& 15), hexDigitLower (n &&& 15)]

/-- `json.dumps` escaping of one character (default `ensure_ascii=True`). -/
def jsonEscChar (c : Char) : List Char :=
  let n := c.toNat
  let bs := Char.ofNat 92
  if n == 34 then [bs, Char.ofNat 34]
  else if n == 92 then [bs, bs]
  else if n == 10 then [bs, 'n']
  else if n == 13 then [bs, 'r']
  else if n == 9 then [bs, 't']
  else if n == 8 then [bs, 'b']
  else if n == 12 then [bs, 'f']
  else if n < 32 then bs :: 'u' :: hex4 n
  else if n < 127 then [c]
  else if n < 65536 then bs :: 'u' :: hex4 n
  else
    let m := n - 65536
    (bs :: 'u' :: hex4 (55296 + (m >>> 10))) ++ (bs :: 'u' :: hex4 (56320 + (m &&& 1023)))

/-- `json.dumps` of a string value. -/
def jsonQuote (s : String) : String :=
  "\"" ++ String.mk (s.data.foldr (fun c a => jsonEscChar c ++ a) []) ++ "\""

/-- `json.dumps` of one JSON value. -/
def jsonDumpPyVal : PyVal → String
  | .vstr s => jsonQuote s
  | .vnum n => toString n
  | .vnull => "null"

/-- `json.dumps` of a record in insertion order (default separators). -/
def jsonDumpRec (d : PyRec) : String :=
  "\x7b" ++
  String.intercalate ", " (d.map (fun p => jsonQuote p.1 ++ ": " ++ jsonDumpPyVal p.2)) ++
  "\x7d"

/-- The `key_string` hashed by `SeenStore._generate_incident_id`:
`json.dumps(key_fields, sort_keys=True)` where the four keys sort as
`lat`, `location`, `lon`, `type`. -/
def hash_key_string (d : PyRec) : String :=
  let typeV := pyGetD d "category" (pyGetD d "incident_type" (PyVal.vstr ""))
  let locV := pyGetD d "address" (pyGetD d "location" (PyVal.vstr ""))
  let latV := PyVal.vstr (pyStr (pyGetD d "latitude" (pyGetD d "lat" (PyVal.vstr ""))))
  let lonV := PyVal.vstr (pyStr (pyGetD d "longitude" (pyGetD d "lon" (PyVal.vstr ""))))
  "\x7b" ++ "\"lat\": " ++ jsonDumpPyVal latV ++
  ", \"location\": " ++ jsonDumpPyVal locV ++
  ", \"lon\": " ++ jsonDumpPyVal lonV ++
  ", \"type\": " ++ jsonDumpPyVal typeV ++ "\x7d"

/-- 32-bit mask. -/
def mask32 : Nat := 4294967295

/-- 32-bit addition. -/
def add32 (a b : Nat) : Nat := (a + b) &&& mask32

/-- 32-bit complement. -/
def not32 (a : Nat) : Nat := a ^^^ mask32

/-- 32-bit left rotation. -/
def rotl32 (x s : Nat) : Nat := ((x <<< s) ||| (x >>> (32 - s))) &&& mask32

/-- MD5 round constants. -/
def md5K : List Nat :=
  [0xd76aa478, 0xe8c7b756, 0x242070db, 0xc1bdceee, 0xf57c0faf, 0x4787c62a, 0xa8304613, 0xfd469501,
   0x698098d8, 0x8b44f7af, 0xffff5bb1, 0x895cd7be, 0x6b901122, 0xfd987193, 0xa679438e, 0x49b40821,
   0xf61e2562, 0xc040b340, 0x265e5a51, 0xe9b6c7aa, 0xd62f105d, 0x02441453, 0xd8a1e681, 0xe7d3fbc8,
   0x21e1cde6, 0xc33707d6, 0xf4d50d87, 0x455a14ed, 0xa9e3e905, 0xfcefa3f8, 0x676f02d9, 0x8d2a4c8a,
   0xfffa3942, 0x8771f681, 0x6d9d6122, 0xfde5380c, 0xa4beea44, 0x4bdecfa9, 0xf6bb4b60, 0xbebfbc70,
   0x289b7ec6, 0xeaa127fa, 0xd4ef3085, 0x04881d05, 0xd9d4d039, 0xe6db99e5, 0x1fa27cf8, 0xc4ac5665,
   0xf4292244, 0x432aff97, 0xab9423a7, 0xfc93a039, 0x655b59c3, 0x8f0ccc92, 0xffeff47d, 0x85845dd1,
   0x6fa87e4f, 0xfe2ce6e0, 0xa3014314, 0x4e0811a1, 0xf7537e82, 0xbd3af235, 0x2ad7d2bb, 0xeb86d391]

/-- MD5 per-round shift amounts. -/
def md5S : List Nat :=
  [7, 12, 17, 22, 7, 12, 17, 22, 7, 12, 17, 22, 7, 12, 17, 22,
   5, 9, 14, 20, 5, 9, 14, 20, 5, 9, 14, 20, 5, 9, 14, 20,
   4, 11, 16, 23, 4, 11, 16, 23, 4, 11, 16, 23, 4, 11, 16, 23,
   6, 10, 15, 21, 6, 10, 15, 21, 6, 10, 15, 21, 6, 10, 15, 21]

/-- Little-endian bytes of a 64-bit length. -/
def le8 (n : Nat) : List Nat := (List.range 8).map (fun i => (n >>> (8 * i)) &&& 255)

/-- Little-endian bytes of a 32-bit word. -/
def le4 (n : Nat) : List Nat := (List.range 4).map (fun i => (n >>> (8 * i)) &&& 255)

/-- MD5 message padding. -/
def md5Pad (msg : List Nat) : List Nat :=
  let len := msg.length
  let padZeros := (119 - (len % 64)) % 64
  msg ++ [128] ++ List.replicate padZeros 0 ++ le8 ((len * 8) &&& (2 ^ 64 - 1))

/-- The sixteen 32-bit little-endian words of one 64-byte block. -/
def md5Words (block : List Nat) : List Nat :=
  (List.range 16).map (fun j =>
    block.getD (4 * j) 0 + 256 * block.getD (4 * j + 1) 0 +
    65536 * block.getD (4 * j + 2) 0 + 16777216 * block.getD (4 * j + 3) 0)

/-- One of the 64 MD5 operations. -/
def md5Op (m : List Nat) (st : Nat × Nat × Nat × Nat) (i : Nat) : Nat × Nat × Nat × Nat :=
  let (a, b, c, d) := st
  let fg : Nat × Nat :=
    if i < 16 then ((b &&& c) ||| (not32 b &&& d), i)
    else if i < 32 then ((d &&& b) ||| (not32 d &&& c), (5 * i + 1) % 16)
    else if i < 48 then (b ^^^ c ^^^ d, (3 * i + 5) % 16)
    else (c ^^^ (b ||| not32 d), (7 * i) % 16)
  let temp := add32 (add32 (add32 a fg.1) (md5K.getD i 0)) (m.getD fg.2 0)
  (d, add32 b (rotl32 temp (md5S.getD i 0)), b, c)

/-- Process one 64-byte block. -/
def md5Block (st : Nat × Nat × Nat × Nat) (block : List Nat) : Nat × Nat × Nat × Nat :=
  let m := md5Words block
  let r := (List.range 64).foldl (md5Op m) st
  (add32 st.1 r.1, add32 st.2.1 r.2.1, add32 st.2.2.1 r.2.2.1, add32 st.2.2.2 r.2.2.2)

/-- Split into 64-byte blocks (fuel-driven so it reduces definitionally). -/
def chunk64 : Nat → List Nat → List (List Nat)
  | 0, _ => []
  | fuel + 1, l => if l.isEmpty then [] else l.take 64 :: chunk64 fuel (l.drop 64)

/-- MD5 digest bytes of a byte message. -/
def md5Digest (msg : List Nat) : List Nat :=
  let padded := md5Pad msg
  let r := (chunk64 (padded.length / 64 + 1) padded).foldl md5Block
    (0x67452301, 0xefcdab89, 0x98badcfe, 0x10325476)
  le4 r.1 ++ le4 r.2.1 ++ le4 r.2.2.1 ++ le4 r.2.2.2

/-- `hashlib.md5(s.encode()).hexdigest()`. -/
def md5HexDigest (s : String) : String :=
  String.mk ((md5Digest (utf8Bytes s)).foldr
    (fun b a => hexDigitLower (b >>> 4) :: hexDigitLower (b &&& 15) :: a) [])

/-- `SeenStore._generate_incident_id`: prefer the feed-specific natural id
field; otherwise hash the canonical key-field serialization. -/
def generate_incident_id (feed_type : String) (d : PyRec) : String :=
  let iid :=
    if feed_type == "fire" then pyOr (pyGet d "incident_number") (pyGet d "id")
    else if feed_type == "traffic" then pyOr (pyGet d "event_id") (pyGet d "id")
    else pyGet d "id"
  if iid.truthy then feed_type ++ "." ++ pyStr iid
  else feed_type ++ "." ++ (md5HexDigest (hash_key_string d)).take 12

/-- A (naive) `datetime` value: calendar and clock fields. -/
structure PyDateTime where
  year : Nat
  month : Nat
  day : Nat
  hour : Nat
  minute : Nat
  second : Nat
  usec : Nat
deriving DecidableEq, Repr

/-- Gregorian leap year. -/
def isLeapYear (y : Nat) : Bool := (y % 4 == 0 && y % 100 != 0) || y % 400 == 0

/-- Length of a month. -/
def daysInMonth (y m : Nat) : Nat :=
  if m == 2 then (if isLeapYear y then 29 else 28)
  else if m == 4 || m == 6 || m == 9 || m == 11 then 30
  else 31

/-- Days from 1970-01-01 to y-m-d (proleptic Gregorian, y ≥ 1). -/
def civilDays (y m d : Nat) : Int :=
  let y' := if m ≤ 2 then y - 1 else y
  let era := y' / 400
  let yoe := y' % 400
  let mp := if m > 2 then m - 3 else m + 9
  let doy := (153 * mp + 2) / 5 + (d - 1)
  let doe := yoe * 365 + yoe / 4 - yoe / 100 + doy
  (era * 146097 + doe : Int) - 719468

/-- Microseconds from the epoch of a naive datetime read as UTC. -/
def PyDateTime.toEpochUsec (dt : PyDateTime) : Int :=
  civilDays dt.year dt.month dt.day * 86400000000 +
  (dt.hour * 3600000000 + dt.minute * 60000000 + dt.second * 1000000 + dt.usec : Nat)

/-- Calendar date of a non-negative epoch day count. -/
def civilFromDays (days : Nat) : Nat × Nat × Nat :=
  let z := days + 719468
  let era := z / 146097
  let doe := z % 146097
  let yoe := (doe - doe / 1460 + doe / 36524 - doe / 146096) / 365
  let y := yoe + era * 400
  let doy := doe - (365 * yoe + yoe / 4 - yoe / 100)
  let mp := (5 * doy + 2) / 153
  let d := doy - (153 * mp + 2) / 5 + 1
  let m := if mp < 10 then mp + 3 else mp - 9
  (if m ≤ 2 then y + 1 else y, m, d)

/-- Datetime of an epoch-microsecond instant (UTC). -/
def epochUsecToDateTime (us : Nat) : PyDateTime :=
  let days := us / 86400000000
  let rem := us % 86400000000
  let c := civilFromDays days
  ⟨c.1, c.2.1, c.2.2, rem / 3600000000, rem / 60000000 % 60, rem / 1000000 % 60,
   rem % 1000000⟩

/-- Decimal digits of a number (fuel-driven so it reduces definitionally). -/
def natDigitsAux : Nat → Nat → List Char
  | 0, _ => []
  | fuel + 1, n =>
      if n < 10 then [Char.ofNat (48 + n)]
      else natDigitsAux fuel (n / 10) ++ [Char.ofNat (48 + n % 10)]

/-- Decimal digits of a number. -/
def natDigits (n : Nat) : List Char := natDigitsAux (n + 1) n

/-- Zero-padded decimal rendering. -/
def padNum (w n : Nat) : String :=
  let ds := natDigits n
  String.mk (List.replicate (w - ds.length) '0' ++ ds)

/-- `datetime.isoformat()` of an aware UTC value (fraction only when the
microsecond field is non-zero). -/
def isoformatUTC (dt : PyDateTime) : String :=
  padNum 4 dt.year ++ "-" ++ padNum 2 dt.month ++ "-" ++ padNum 2 dt.day ++ "T" ++
  padNum 2 dt.hour ++ ":" ++ padNum 2 dt.minute ++ ":" ++ padNum 2 dt.second ++
  (if dt.usec == 0 then "" else "." ++ padNum 6 dt.usec) ++ "+00:00"

/-- `dt.strftime("%Y-%m-%d %H:%M UTC")`. -/
def strftimeReported (dt : PyDateTime) : String :=
  padNum 4 dt.year ++ "-" ++ padNum 2 dt.month ++ "-" ++ padNum 2 dt.day ++ " " ++
  padNum 2 dt.hour ++ ":" ++ padNum 2 dt.minute ++ " UTC"

/-- Numeric value of a digit character. -/
def digitVal (c : Char) : Nat := c.toNat - 48

/-- Two decimal digits. -/
def take2Digits : List Char → Option (Nat × List Char)
  | a :: b :: r =>
      if a.isDigit && b.isDigit then some (digitVal a * 10 + digitVal b, r) else none
  | _ => none

/-- The `YYYY-MM-DD` date prefix of `fromisoformat` input. -/
def parseIsoDate : List Char → Option (Nat × Nat × Nat × List Char)
  | a :: b :: c :: d :: '-' :: mo1 :: mo2 :: '-' :: d1 :: d2 :: r =>
      if a.isDigit && b.isDigit && c.isDigit && d.isDigit &&
         mo1.isDigit && mo2.isDigit && d1.isDigit && d2.isDigit then
        some (digitVal a * 1000 + digitVal b * 100 + digitVal c * 10 + digitVal d,
              digitVal mo1 * 10 + digitVal mo2, digitVal d1 * 10 + digitVal d2, r)
      else none
  | _ => none

/-- The `HH[:MM[:SS[.fff[fff]]]]` part of `fromisoformat` input
(CPython `_parse_hh_mm_ss_ff`: the fraction is exactly 3 or 6 digits). -/
def parseIsoTimeCore (l : List Char) : Option (Nat × Nat × Nat × Nat) :=
  match take2Digits l with
  | some (h, []) => some (h, 0, 0, 0)
  | some (h, ':' :: r) =>
    match take2Digits r with
    | some (mi, []) => some (h, mi, 0, 0)
    | some (mi, ':' :: r2) =>
      match take2Digits r2 with
      | some (se, []) => some (h, mi, se, 0)
      | some (se, '.' :: fr) =>
          if fr.all Char.isDigit then
            if fr.length == 3 then
              some (h, mi, se, (fr.foldl (fun a c => a * 10 + digitVal c) 0) * 1000)
            else if fr.length == 6 then
              some (h, mi, se, fr.foldl (fun a c => a * 10 + digitVal c) 0)
            else none
          else none
      | _ => none
    | _ => none
  | _ => none

/-- The UTC-offset tail of `fromisoformat` input (sign already consumed):
CPython accepts only lengths 5, 8 or 15 (`HH:MM[:SS[.ffffff]]`); the
`timezone` constructor then requires the magnitude to be below 24 hours. -/
def parseIsoOffset (oc : List Char) : Option Int :=
  if oc.length == 5 || oc.length == 8 || oc.length == 15 then
    match parseIsoTimeCore oc with
    | some (h, mi, se, us) =>
        let total : Nat := h * 3600000000 + mi * 60000000 + se * 1000000 + us
        if total < 86400000000 then some (total : Int) else none
    | none => none
  else none

/-- `datetime.fromisoformat` (CPython 3.10 grammar): returns the parsed
fields and the UTC offset in microseconds (`none` = naive). -/
def fromisoformat (s : String) : Option (PyDateTime × Option Int) :=
  match parseIsoDate s.data with
  | none => none
  | some (y, mo, dd, rest) =>
    if 1 ≤ y && 1 ≤ mo && mo ≤ 12 && 1 ≤ dd && dd ≤ daysInMonth y mo then
      match rest with
      | [] => some (⟨y, mo, dd, 0, 0, 0, 0⟩, none)
      | _sep :: tr =>
        let timeC := tr.takeWhile (fun c => !(c == '+' || c == '-'))
        let offC := tr.dropWhile (fun c => !(c == '+' || c == '-'))
        match parseIsoTimeCore timeC with
        | none => none
        | some (h, mi, se, us) =>
          if h ≤ 23 && mi ≤ 59 && se ≤ 59 then
            let dt : PyDateTime := ⟨y, mo, dd, h, mi, se, us⟩
            match offC with
            | [] => some (dt, none)
            | sign :: oc =>
              match parseIsoOffset oc with
              | some offUs => some (dt, some (if sign == '-' then -offUs else offUs))
              | none => none
          else none
    else none

/-- Epoch microseconds of an aware datetime with the given offset. -/
def awareEpochUsec (dt : PyDateTime) (offUs : Int) : Int :=
  dt.toEpochUsec - offUs

/-- `html.escape(text, quote=True)` as used by `xml_escape` in `build.py`,
expressed per character.  The source applies sequential `str.replace`
passes with `&` first; that equals this character map because no
replacement output contains a character replaced by a later pass. -/
def xmlEscChar (c : Char) : List Char :=
  if c == '&' then "&amp;".data
  else if c == '<' then "&lt;".data
  else if c == '>' then "&gt;".data
  else if c == Char.ofNat 34 then "&quot;".data
  else if c == Char.ofNat 39 then "&#x27;".data
  else [c]

/-- Per-character escaping lifted to character lists. -/
def escCharsWith (f : Char → List Char) (l : List Char) : List Char :=
  l.foldr (fun c a => f c ++ a) []

/-- `xml_escape` from `app/cot/build.py`. -/
def xml_escape (s : String) : String :=
  String.mk (escCharsWith xmlEscChar s.data)

/-- CPython `ElementTree` attribute-value escaping (`_escape_attrib`). -/
def etEscAttribChar (c : Char) : List Char :=
  if c == '&' then "&amp;".data
  else if c == '<' then "&lt;".data
  else if c == '>' then "&gt;".data
  else if c == Char.ofNat 34 then "&quot;".data
  else if c == '\r' then "&#13;".data
  else if c == '\n' then "&#10;".data
  else if c == '\t' then "&#09;".data
  else [c]

/-- `ElementTree` attribute-value escaping, lifted to strings. -/
def etEscAttrib (s : String) : String :=
  String.mk (escCharsWith etEscAttribChar s.data)

/-- CPython `ElementTree` text escaping (`_escape_cdata`). -/
def etEscCdataChar (c : Char) : List Char :=
  if c == '&' then "&amp;".data
  else if c == '<' then "&lt;".data
  else if c == '>' then "&gt;".data
  else [c]

/-- `ElementTree` text escaping, lifted to strings. -/
def etEscCdata (s : String) : String :=
  String.mk (escCharsWith etEscCdataChar s.data)

/-- The event tree built by `build_incident_cot` before serialization.  Each
field holds exactly the string the Python code stores in the
`ElementTree` element (so `uid`, `callsign`, `linkUrl`, `remarksText`
already went through `xml_escape` there); times are epoch microseconds. -/
structure CotEvent where
  uid : String
  cotType : String
  timeUsec : Nat
  staleUsec : Nat
  how : String
  latS : String
  lonS : String
  callsign : String
  linkUrl : String
  remarksText : String
deriving DecidableEq, Repr

/-- `build_incident_cot` (`app/cot/build.py`): escapes the free-text fields
with `xml_escape`, stamps `time = start = now` and
`stale = now + stale_minutes`.  `latS`/`lonS` are the `str(lat)`/`str(lon)`
coordinate renderings. -/
def build_incident_cot (uid latS lonS callsign remarks link cot_type : String)
    (stale_minutes : Nat) (how : String) (nowUsec : Nat) : CotEvent :=
  { uid := xml_escape uid
    cotType := cot_type
    timeUsec := nowUsec
    staleUsec := nowUsec + stale_minutes * 60000000
    how := how
    latS := latS
    lonS := lonS
    callsign := xml_escape callsign
    linkUrl := xml_escape link
    remarksText := xml_escape remarks }

/-- Models `str(float(v))` for the canonical decimal strings the feeds
deliver.  CPython's shortest-repr float formatting is outside the model;
no claim depends on coordinate rendering. -/
def coordStr (v : PyVal) : String :=
  match v with
  | .vstr s => String.mk ((s.data.dropWhile isPyWs).reverse.dropWhile isPyWs).reverse
  | .vnum n => toString n ++ ".0"
  | .vnull => "0.0"

/-- Coordinate extraction shared by the builders: `float(get("latitude", 0))`
and `float(get("longitude", 0))` inside one `try`, falling back to
`0.0, 0.0` when either raises. -/
def buildCoords (d : PyRec) : String × String :=
  let latV := pyGetD d "latitude" (PyVal.vnum 0)
  let lonV := pyGetD d "longitude" (PyVal.vnum 0)
  if pyFloatOk latV && pyFloatOk lonV then (coordStr latV, coordStr lonV)
  else ("0.0", "0.0")

/-- `str.replace` for a one-character pattern (the source only ever calls
`published_date.replace('Z', '+00:00')`). -/
def pyReplaceChar (c : Char) (sub : List Char) : List Char → List Char
  | [] => []
  | a :: r => (if a == c then sub else [a]) ++ pyReplaceChar c sub r

/-- `s.replace('Z', '+00:00')`. -/
def pyReplaceZ (s : String) : String :=
  String.mk (pyReplaceChar 'Z' "+00:00".data s.data)

/-- The optional `"<label> <date>"` remarks segment: parse
`published_date.replace('Z', '+00:00')` and format it; any failure
(including a non-string value) is swallowed by the bare `except`. -/
def reportedSegmentWith (lab : String) (d : PyRec) : List String :=
  let v := pyGetD d "published_date" (PyVal.vstr "")
  if v.truthy then
    match v with
    | .vstr s =>
      match fromisoformat (pyReplaceZ s) with
      | some (dt, _) => [lab ++ strftimeReported dt]
      | none => []
    | _ => []
  else []

/-- `build_traffic_incident_cot` (`app/cot/build.py`). -/
def build_traffic_incident_cot (d : PyRec) (stale_minutes : Nat) (nowUsec : Nat) : CotEvent :=
  let incident_id := pyStr (pyGetD d "traffic_report_id" (PyVal.vstr "unknown"))
  let uid := "austin.traffic." ++ incident_id
  let co := buildCoords d
  let issue := pyStr (pyGetD d "issue_reported" (PyVal.vstr "TRAFFIC INCIDENT"))
  let callsign := "APD: " ++ issue
  let address := pyStr (pyGetD d "address" (PyVal.vstr "Unknown Location"))
  let status := pyStr (pyGetD d "traffic_report_status" (PyVal.vstr "Active"))
  let remarks := String.intercalate " | "
    ([issue ++ " @ " ++ address, "Status: " ++ status] ++ reportedSegmentWith "Reported: " d)
  let link := "https://data.austintexas.gov/resource/dx9v-zd7x.json?traffic_report_id=" ++ incident_id
  build_incident_cot uid co.1 co.2 callsign remarks link "b-e-i" stale_minutes "m-g" nowUsec

/-- `build_fire_incident_cot` (`app/cot/build.py`). -/
def build_fire_incident_cot (d : PyRec) (stale_minutes : Nat) (nowUsec : Nat) : CotEvent :=
  let incident_id := pyStr (pyGetD d "traffic_report_id" (PyVal.vstr "unknown"))
  let uid := "austin.fire." ++ incident_id
  let co := buildCoords d
  let issue := pyStr (pyGetD d "issue_reported" (PyVal.vstr "INCIDENT"))
  let callsign := "AFD: " ++ issue
  let address := pyStr (pyGetD d "address" (PyVal.vstr "Unknown Location"))
  let status := pyStr (pyGetD d "traffic_report_status" (PyVal.vstr "Active"))
  let remarks := String.intercalate " | "
    ([issue ++ " @ " ++ address, "Status: " ++ status] ++ reportedSegmentWith "Reported: " d)
  let link := "https://data.austintexas.gov/resource/wpu4-x69d.json?traffic_report_id=" ++ incident_id
  build_incident_cot uid co.1 co.2 callsign remarks link "b-e-i" stale_minutes "m-g" nowUsec

/-- `build_incident_closure_cot` (`app/cot/lifecycle.py`): always passes
`stale_minutes=1`. -/
def build_incident_closure_cot (d : PyRec) (feed_type closure_reason : String)
    (nowUsec : Nat) : CotEvent :=
  let incident_id := pyStr (pyGetD d "traffic_report_id" (PyVal.vstr "unknown"))
  let uid := "austin." ++ feed_type ++ "." ++ incident_id
  let co := buildCoords d
  let issue := pyStr (pyGetD d "issue_reported" (PyVal.vstr "INCIDENT"))
  let callsign := (if feed_type == "fire" then "AFD: " else "APD: ") ++ issue ++ " - " ++ closure_reason
  let address := pyStr (pyGetD d "address" (PyVal.vstr "Unknown Location"))
  let status := pyStr (pyGetD d "traffic_report_status" (PyVal.vstr "CLOSED"))
  let remarks := String.intercalate " | "
    ([issue ++ " @ " ++ address, "Status: " ++ status, "Closure: " ++ closure_reason] ++
     reportedSegmentWith "Originally Reported: " d)
  let link :=
    if feed_type == "fire" then
      "https://data.austintexas.gov/resource/wpu4-x69d.json?traffic_report_id=" ++ incident_id
    else
      "https://data.austintexas.gov/resource/dx9v-zd7x.json?traffic_report_id=" ++ incident_id
  build_incident_cot uid co.1 co.2 callsign remarks link "b-e-i" 1 "m-g" nowUsec

/-- One serialized attribute: literal prefix, opening quote, the
serializer-escaped value, closing quote — then the rest of the document. -/
def chunksData : List (String × String) → List Char → List Char
  | [], rest => rest
  | (lit, v) :: ls, rest =>
      lit.data ++ Char.ofNat 34 ::
        (escCharsWith etEscAttribChar v.data ++ Char.ofNat 34 :: chunksData ls rest)

/-- The attribute literals of the event document, in the order the source
sets the attributes. -/
def cotAttrLits : List String :=
  ["<event version=", " uid=", " type=", " time=", " start=", " stale=", " how=",
   "><point lat=", " lon=", " hae=", " ce=", " le=",
   " /><detail><contact callsign=", " /><link url="]

/-- The attribute values of the event document, in the same order. -/
def cotAttrVals (e : CotEvent) : List String :=
  let t := isoformatUTC (epochUsecToDateTime e.timeUsec)
  let st := isoformatUTC (epochUsecToDateTime e.staleUsec)
  ["2.0", e.uid, e.cotType, t, t, st, e.how, e.latS, e.lonS,
   "9999999.0", "9999999.0", "9999999.0", e.callsign, e.linkUrl]

/-- The characters of the serialized event document. -/
def renderCotData (e : CotEvent) : List Char :=
  chunksData (cotAttrLits.zip (cotAttrVals e))
    (" />".data ++
     ((if e.remarksText == "" then "<remarks />".data
       else "<remarks>".data ++
         (escCharsWith etEscCdataChar e.remarksText.data ++ "</remarks>".data)) ++
      "</detail></event>".data))

/-- `ET.tostring` of the event tree, exactly as CPython's `ElementTree`
serializes it: insertion-ordered attributes in the order the source sets
them, the serializer's attribute/text escaping on every value, and the
short form for empty elements.  The source's final
`ET.tostring(ET.fromstring(...))` round trip is the identity on these
documents. -/
def renderCot (e : CotEvent) : String := String.mk (renderCotData e)

/-- One entity reference, as a conforming XML parser resolves it: the five
predefined entities plus the character references `ElementTree`'s
serializer and `xml_escape` produce. -/
def entityHead : List Char → Option (Char × List Char)
  | 'a' :: 'm' :: 'p' :: ';' :: r => some ('&', r)
  | 'l' :: 't' :: ';' :: r => some ('<', r)
  | 'g' :: 't' :: ';' :: r => some ('>', r)
  | 'q' :: 'u' :: 'o' :: 't' :: ';' :: r => some (Char.ofNat 34, r)
  | 'a' :: 'p' :: 'o' :: 's' :: ';' :: r => some (Char.ofNat 39, r)
  | '#' :: '0' :: '9' :: ';' :: r => some ('\t', r)
  | '#' :: '1' :: '0' :: ';' :: r => some ('\n', r)
  | '#' :: '1' :: '3' :: ';' :: r => some ('\r', r)
  | '#' :: 'x' :: '2' :: '7' :: ';' :: r => some (Char.ofNat 39, r)
  | _ => none

/-- Entity resolution, fuel-driven (each step consumes at least one
character, so `fuel = length` always suffices; the fuel only makes the
recursion structural). -/
def unescAux : Nat → List Char → Option (List Char)
  | _, [] => some []
  | 0, _ :: _ => none
  | fuel + 1, c :: r =>
    if c == '&' then
      match entityHead r with
      | some dr => (unescAux fuel dr.2).map (dr.1 :: ·)
      | none => none
    else (unescAux fuel r).map (c :: ·)

/-- See the comment above `entityHead`: what a conforming parser recovers
from attribute values and text bodies of the documents this serializer
emits; a bare `&` or an unknown entity makes the document ill-formed. -/
def xmlUnescapeL (l : List Char) : Option (List Char) := unescAux l.length l

/-- Exact literal prefix. -/
def pLit : List Char → List Char → Option (List Char)
  | [], s => some s
  | c :: lr, d :: sr => if c == d then pLit lr sr else none
  | _ :: _, [] => none

/-- Raw characters up to (and consuming) the next `"`. -/
def pQuoted : List Char → Option (List Char × List Char)
  | [] => none
  | c :: r =>
      if c == Char.ofNat 34 then some ([], r)
      else match pQuoted r with
           | some (v, rest) => some (c :: v, rest)
           | none => none

/-- Raw characters up to (not consuming) the next `<`. -/
def pText : List Char → Option (List Char × List Char)
  | [] => none
  | c :: r =>
      if c == '<' then some ([], c :: r)
      else match pText r with
           | some (v, rest) => some (c :: v, rest)
           | none => none

/-- One attribute value: literal prefix, the opening quote, the quoted raw
value, entity resolution. -/
def pAttr (lit : String) (s : List Char) : Option (String × List Char) :=
  match pLit (lit.data ++ [Char.ofNat 34]) s with
  | none => none
  | some s1 =>
    match pQuoted s1 with
    | none => none
    | some (raw, s2) =>
      match xmlUnescapeL raw with
      | none => none
      | some v => some (String.mk v, s2)

/-- What a conforming XML parser recovers from a serialized event document:
each attribute value and the remarks text body, entities resolved. -/
structure ParsedCot where
  version : String
  uid : String
  cotType : String
  time : String
  start : String
  stale : String
  how : String
  lat : String
  lon : String
  callsign : String
  url : String
  remarks : String
deriving DecidableEq, Repr

/-- Parse a chain of attributes given their literal prefixes. -/
def pAttrs : List String → List Char → Option (List String × List Char)
  | [], s => some ([], s)
  | lit :: ls, s =>
    match pAttr lit s with
    | some (v, s1) =>
      match pAttrs ls s1 with
      | some (vs, s2) => some (v :: vs, s2)
      | none => none
    | none => none

/-- The attribute chain of the event document, in serialization order. -/
def parseCotAttrs (doc : String) : Option (List String × List Char) :=
  pAttrs cotAttrLits doc.data

/-- The remarks element and document tail. -/
def parseCotRemarks (s : List Char) : Option String :=
  match pLit " />".data s with
  | none => none
  | some s15 =>
    match pLit "<remarks />".data s15 with
    | some s16 =>
      match pLit "</detail></event>".data s16 with
      | some s17 => if s17.isEmpty then some "" else none
      | none => none
    | none =>
      match pLit "<remarks>".data s15 with
      | none => none
      | some s16 =>
        match pText s16 with
        | none => none
        | some (rawText, s17) =>
          match xmlUnescapeL rawText with
          | none => none
          | some remarks =>
            match pLit "</remarks></detail></event>".data s17 with
            | some s18 => if s18.isEmpty then some (String.mk remarks) else none
            | none => none

/-- Re-parse a serialized event document (the fixed element/attribute layout
this service emits).  Returns `none` when the document is not well-formed
markup of that shape. -/
def parseCot (doc : String) : Option ParsedCot :=
  match parseCotAttrs doc with
  | some ([version, uid, cotType, time, start, stale, how, lat, lon, _, _, _, callsign, url], s14) =>
    match parseCotRemarks s14 with
    | some remarks =>
        some ⟨version, uid, cotType, time, start, stale, how, lat, lon, callsign, url, remarks⟩
    | none => none
  | _ => none

/-- `.get("traffic_report_status", "").upper()`.  A non-string value raises
`AttributeError` in the source; the theorems that go through this function
carry string-status hypotheses, so the `""` fallback is never relied on. -/
def pyUpperVal (v : PyVal) : String :=
  match v with
  | .vstr s => String.mk (s.data.map Char.toUpper)
  | _ => ""

/-- The upper-cased `traffic_report_status` field. -/
def upperStatus (d : PyRec) : String :=
  pyUpperVal (pyGetD d "traffic_report_status" (PyVal.vstr ""))

/-- A record whose status field is a string (or absent), so the source's
`.upper()` cannot raise. -/
def statusWF (d : PyRec) : Prop :=
  match pyGetD d "traffic_report_status" (PyVal.vstr "") with
  | .vstr _ => True
  | _ => False

instance (d : PyRec) : Decidable (statusWF d) := by
  unfold statusWF; exact match pyGetD d "traffic_report_status" (PyVal.vstr "") with
  | .vstr _ => isTrue trivial
  | .vnum _ => isFalse id
  | .vnull => isFalse id

/-- `is_incident_active` (`app/cot/lifecycle.py`). -/
def is_incident_active (d : PyRec) : Bool := upperStatus d == "ACTIVE"

/-- `should_send_closure_cot` (`app/cot/lifecycle.py`). -/
def should_send_closure_cot : Option PyRec → Option PyRec → Bool
  | none, _ => false
  | some prev, current =>
    let ps := upperStatus prev
    match current with
    | none => ps == "ACTIVE"
    | some cur => ps == "ACTIVE" && upperStatus cur == "ARCHIVED"

/-- `get_closure_reason` (`app/cot/lifecycle.py`). -/
def get_closure_reason (d : PyRec) : String :=
  let s := upperStatus d
  if s == "ARCHIVED" then "INCIDENT ARCHIVED"
  else if s == "CLOSED" then "INCIDENT CLOSED"
  else if s == "RESOLVED" then "INCIDENT RESOLVED"
  else "INCIDENT NO LONGER ACTIVE"

/-- The lifecycle manager's `_tracked_incidents` dict, in insertion order. -/
abbrev Tracked := List (String × PyRec)

/-- Python `dict` assignment: replace in place, else append. -/
def dictSet {α : Type} : List (String × α) → String → α → List (String × α)
  | [], k, v => [(k, v)]
  | (k', v') :: r, k, v => if k' == k then (k, v) :: r else (k', v') :: dictSet r k v

/-- `IncidentLifecycleManager.track_incident`. -/
def track_incident (t : Tracked) (k : String) (d : PyRec) : Tracked := dictSet t k d

/-- The deletion/emission loop of `check_for_closures` over the snapshot of
tracked incidents: triggered entries emit one closure event and leave the
dict, the rest stay. -/
def closuresLoop (current : Tracked) (feed_type : String) (nowUsec : Nat) :
    Tracked → List CotEvent × Tracked
  | [] => ([], [])
  | (k, prev) :: rest =>
    let r := closuresLoop current feed_type nowUsec rest
    if should_send_closure_cot (some prev) (List.lookup k current) then
      (build_incident_closure_cot prev feed_type (get_closure_reason prev) nowUsec :: r.1, r.2)
    else (r.1, (k, prev) :: r.2)

/-- The trailing re-tracking pass of `check_for_closures`: every identity in
the current batch is stored (insert or replace). -/
def updateAll (base : Tracked) : Tracked → Tracked
  | [] => base
  | (k, v) :: rest => updateAll (dictSet base k v) rest

/-- `IncidentLifecycleManager.check_for_closures`: returns the closure
events (in tracking order) and the tracking dict after the call. -/
def check_for_closures (t current : Tracked) (feed_type : String) (nowUsec : Nat) :
    List CotEvent × Tracked :=
  let r := closuresLoop current feed_type nowUsec t
  (r.1, updateAll r.2 current)

/-- Is one tracked record removed by
`IncidentLifecycleManager.cleanup_old_incidents`?  A falsy `published_date`
is skipped by the `if published_date:` guard (kept); a non-string value, a
parse failure, or a naive timestamp raises inside the `try` and the bare
`except` removes the record; an aware timestamp is removed iff it is
strictly older than the cutoff. -/
def lifecycleRemoveP (nowUsec : Int) (maxAgeHours : Nat) (d : PyRec) : Bool :=
  let cutoff := nowUsec - (maxAgeHours * 3600000000 : Nat)
  let pd := pyGetD d "published_date" (PyVal.vstr "")
  if pd.truthy then
    match pd with
    | .vstr s =>
      match fromisoformat (pyReplaceZ s) with
      | some (dt, some offUs) => decide (awareEpochUsec dt offUs < cutoff)
      | some (_, none) => true
      | none => true
    | _ => true
  else false

/-- `IncidentLifecycleManager.cleanup_old_incidents`: the tracking dict
after the sweep and the number removed. -/
def lifecycle_cleanup_old_incidents (t : Tracked) (nowUsec : Int) (maxAgeHours : Nat) :
    Tracked × Nat :=
  (t.filter (fun p => !lifecycleRemoveP nowUsec maxAgeHours p.2),
   (t.filter (fun p => lifecycleRemoveP nowUsec maxAgeHours p.2)).length)

/-- SQLite TEXT comparison (byte-wise; these ISO strings are ASCII, so
codepoint order and byte order agree). -/
def charListLt : List Char → List Char → Bool
  | [], [] => false
  | [], _ :: _ => true
  | _ :: _, [] => false
  | a :: as, b :: bs =>
      if a.toNat < b.toNat then true
      else if b.toNat < a.toNat then false
      else charListLt as bs

/-- SQLite TEXT comparison on strings. -/
def textLt (a b : String) : Bool := charListLt a.data b.data

/-- One row of the `seen_incidents` table. -/
structure SeenRow where
  feed_type : String
  incident_data : String
  first_seen : String
  last_seen : String
  cot_sent : Bool
deriving DecidableEq, Repr

/-- The `seen_incidents` table, keyed by the generated incident id. -/
abbrev SeenTable := List (String × SeenRow)

/-- A `SeenStore`: `conn = none` models a store whose `connect` was never
called (or that was disconnected). -/
structure SeenStore where
  conn : Option SeenTable
deriving DecidableEq, Repr

/-- `SeenStore.disconnect`. -/
def seen_disconnect (_st : SeenStore) : SeenStore := ⟨none⟩

/-- `SeenStore.is_incident_seen`: `False` without a connection, else a
primary-key lookup. -/
def is_incident_seen (st : SeenStore) (feed_type : String) (d : PyRec) : Bool :=
  match st.conn with
  | none => false
  | some tbl => (List.lookup (generate_incident_id feed_type d) tbl).isSome

/-- The connected path of `SeenStore.mark_incident_seen`: update
`last_seen`/`cot_sent` when the id exists, else insert a fresh row. -/
def markSeenTable (tbl : SeenTable) (feed_type : String) (d : PyRec) (cot_sent : Bool)
    (nowIso : String) : SeenTable :=
  let iid := generate_incident_id feed_type d
  match List.lookup iid tbl with
  | some _ =>
      tbl.map (fun p =>
        if p.1 == iid then
          (p.1, ⟨p.2.feed_type, p.2.incident_data, p.2.first_seen, nowIso, cot_sent⟩)
        else p)
  | none => tbl ++ [(iid, ⟨feed_type, jsonDumpRec d, nowIso, nowIso, cot_sent⟩)]

/-- `SeenStore.mark_incident_seen`: raises `RuntimeError` without a
connection, else upserts and returns the id. -/
def mark_incident_seen (st : SeenStore) (feed_type : String) (d : PyRec) (cot_sent : Bool)
    (nowIso : String) : Except String (SeenStore × String) :=
  match st.conn with
  | none => Except.error "Database not connected"
  | some tbl =>
      Except.ok (⟨some (markSeenTable tbl feed_type d cot_sent nowIso)⟩,
                 generate_incident_id feed_type d)

/-- `SeenStore.cleanup_old_incidents`: returns `0` without a connection;
otherwise computes `cutoff = midnight-of-today` and then
`cutoff.replace(day=cutoff.day - days_old)`, which raises `ValueError`
when the resulting day falls outside the current month, and finally
deletes rows whose `last_seen` TEXT sorts strictly below the cutoff's
isoformat. -/
def seen_cleanup_old_incidents (st : SeenStore) (now : PyDateTime) (days_old : Nat) :
    Except String (SeenStore × Nat) :=
  match st.conn with
  | none => Except.ok (st, 0)
  | some tbl =>
    let c0 : PyDateTime := { now with hour := 0, minute := 0, second := 0, usec := 0 }
    let newDay : Int := (c0.day : Int) - (days_old : Int)
    if newDay < 1 || (daysInMonth c0.year c0.month : Int) < newDay then
      Except.error "day is out of range for month"
    else
      let cutoffIso := isoformatUTC { c0 with day := newDay.toNat }
      Except.ok (⟨some (tbl.filter (fun p => !textLt p.2.last_seen cutoffIso))⟩,
                 (tbl.filter (fun p => textLt p.2.last_seen cutoffIso)).length)

/-- One observable effect of a poll cycle, in program order: an incident
event handed to the sender, a closure event handed to the sender, the
lifecycle cleanup call, or the `update_feed_state` counter write. -/
inductive PollAction where
  | sendCot (e : CotEvent)
  | sendClosure (e : CotEvent)
  | lifecycleCleanup
  | recordPoll (fetched sent : Nat)
deriving DecidableEq, Repr

/-- `TrafficFeedPoller._process_incident`: skip invalid records; otherwise
build the event, hand it to the sender when the sender runs (wire success
abstracted as true), and mark the incident seen. -/
def process_incident_traffic (tbl : SeenTable) (senderRunning : Bool)
    (stale_minutes nowUsec : Nat) (nowIso : String) (d : PyRec) :
    SeenTable × List PollAction :=
  if !validate_incident_traffic d then (tbl, [])
  else
    let e := build_traffic_incident_cot d stale_minutes nowUsec
    (markSeenTable tbl "traffic" d senderRunning nowIso,
     if senderRunning then [PollAction.sendCot e] else [])

/-- `FireFeedPoller._process_incident`. -/
def process_incident_fire (tbl : SeenTable) (senderRunning : Bool)
    (stale_minutes nowUsec : Nat) (nowIso : String) (d : PyRec) :
    SeenTable × List PollAction :=
  if !validate_incident_fire d then (tbl, [])
  else
    let e := build_fire_incident_cot d stale_minutes nowUsec
    (markSeenTable tbl "fire" d senderRunning nowIso,
     if senderRunning then [PollAction.sendCot e] else [])

/-- `TrafficFeedPoller._poll_incidents` after a successful fetch: process
each record, then write the poll counters.  `incidents_sent` counts every
record whose `_process_incident` call returned (all of them here, since
per-record exceptions are outside the model).  The traffic poller owns no
lifecycle manager and performs no closure pass. -/
def traffic_poll_incidents (tbl : SeenTable) (senderRunning : Bool)
    (batch : List PyRec) (stale_minutes nowUsec : Nat) (nowIso : String) :
    SeenTable × List PollAction :=
  let pr := batch.foldl
    (fun acc d =>
      let p := process_incident_traffic acc.1 senderRunning stale_minutes nowUsec nowIso d
      (p.1, acc.2 ++ p.2))
    (tbl, ([] : List PollAction))
  (pr.1, pr.2 ++ [PollAction.recordPoll batch.length batch.length])

/-- The `current_incidents` dict built by `FireFeedPoller._poll_incidents`:
records keyed by a truthy `traffic_report_id`.  (A truthy non-string id
would become a non-string dict key in Python; the fire poll theorems
restrict ids to strings.) -/
def fire_current_incidents (batch : List PyRec) : Tracked :=
  batch.foldl
    (fun acc d =>
      match pyGet d "traffic_report_id" with
      | PyVal.vstr s => if !s.isEmpty then dictSet acc s d else acc
      | _ => acc)
    []

/-- A record whose `traffic_report_id` is a string or falsy, so the model's
string-keyed `current_incidents` dict is faithful. -/
def recIdWF (d : PyRec) : Prop :=
  match pyGet d "traffic_report_id" with
  | .vstr _ => True
  | .vnum n => n = 0
  | .vnull => True

instance (d : PyRec) : Decidable (recIdWF d) := by
  unfold recIdWF
  exact match pyGet d "traffic_report_id" with
  | .vstr _ => isTrue trivial
  | .vnum n => inferInstanceAs (Decidable (n = 0))
  | .vnull => isTrue trivial

/-- `FireFeedPoller._poll_incidents` after a successful fetch: build
`current_incidents` while processing each record, run
`check_for_closures`, send each closure while the sender runs, run the
lifecycle cleanup, then write the poll counters. -/
def fire_poll_incidents (tbl : SeenTable) (lifecycle : Tracked) (senderRunning : Bool)
    (batch : List PyRec) (stale_minutes nowUsec : Nat) (nowIso : String) :
    SeenTable × Tracked × List PollAction :=
  let current := fire_current_incidents batch
  let pr := batch.foldl
    (fun acc d =>
      let p := process_incident_fire acc.1 senderRunning stale_minutes nowUsec nowIso d
      (p.1, acc.2 ++ p.2))
    (tbl, ([] : List PollAction))
  let cl := check_for_closures lifecycle current "fire" nowUsec
  let closureActs := if senderRunning then cl.1.map PollAction.sendClosure else []
  let closuresSent := if senderRunning then cl.1.length else 0
  let lc := lifecycle_cleanup_old_incidents cl.2 (nowUsec : Int) 24
  (pr.1, lc.1,
   pr.2 ++ closureActs ++
   [PollAction.lifecycleCleanup, PollAction.recordPoll batch.length (batch.length + closuresSent)])


/-- The end-to-end scenario record from the specification. -/
def c1rec : PyRec :=
  [("traffic_report_id", PyVal.vstr "T1"), ("latitude", PyVal.vstr "30.27"),
   ("longitude", PyVal.vstr "-97.74"), ("issue_reported", PyVal.vstr "CRASH"),
   ("address", PyVal.vstr "Main St"), ("traffic_report_status", PyVal.vstr "ACTIVE")]

/-- A previously tracked ACTIVE incident. -/
def c2prevActive : PyRec :=
  [("traffic_report_status", PyVal.vstr "ACTIVE"), ("traffic_report_id", PyVal.vstr "I1")]

/-- The same incident, now ARCHIVED in the current batch. -/
def c2curArchived : PyRec :=
  [("traffic_report_status", PyVal.vstr "ARCHIVED"), ("traffic_report_id", PyVal.vstr "I1")]

/-- One-incident tracking state. -/
def c2tracked : Tracked := [("I1", c2prevActive)]

/-- Current batch carrying the ARCHIVED record under the same identity. -/
def c2current : Tracked := [("I1", c2curArchived)]

/-- A valid fire record (natural ids present, so no hash fallback). -/
def c3fireRec : PyRec :=
  [("traffic_report_id", PyVal.vstr "F1"), ("incident_number", PyVal.vstr "F1"),
   ("latitude", PyVal.vstr "30.27"), ("longitude", PyVal.vstr "-97.74"),
   ("issue_reported", PyVal.vstr "STRUCTURE FIRE"),
   ("traffic_report_status", PyVal.vstr "ACTIVE")]

/-- A valid traffic record (natural ids present, so no hash fallback). -/
def c3trafficRec : PyRec :=
  [("event_id", PyVal.vstr "T9"), ("traffic_report_id", PyVal.vstr "T9"),
   ("latitude", PyVal.vstr "30.27"), ("longitude", PyVal.vstr "-97.74"),
   ("issue_reported", PyVal.vstr "CRASH"),
   ("traffic_report_status", PyVal.vstr "ACTIVE")]

/-- Is an action a closure-event send? -/
def isClosureAction : PollAction → Bool
  | .sendClosure _ => true
  | _ => false

/-- Fire poll cycle 1: one active incident fetched. -/
def c3fire1 : SeenTable × Tracked × List PollAction :=
  fire_poll_incidents [] [] true [c3fireRec] 10 1760000000000000 "t0"

/-- Fire poll cycle 2: the incident has disappeared from the feed. -/
def c3fire2 : SeenTable × Tracked × List PollAction :=
  fire_poll_incidents c3fire1.1 c3fire1.2.1 true [] 10 1760000000000000 "t1"

/-- Traffic poll cycle 1: one active incident fetched. -/
def c3traffic1 : SeenTable × List PollAction :=
  traffic_poll_incidents [] true [c3trafficRec] 10 1760000000000000 "t0"

/-- Traffic poll cycle 2: the incident has disappeared from the feed. -/
def c3traffic2 : SeenTable × List PollAction :=
  traffic_poll_incidents c3traffic1.1 true [] 10 1760000000000000 "t1"

/-- A stored row last seen 2026-09-01. -/
def c7row : SeenRow :=
  ⟨"traffic", "snapshot", "2026-09-01T00:00:00+00:00", "2026-09-01T00:00:00+00:00", false⟩

/-- A connected store holding `c7row`. -/
def c7store : SeenStore := ⟨some [("traffic.T1", c7row)]⟩

/-- A current time in the first week of a month (day 3 < 7). -/
def c7now : PyDateTime := ⟨2026, 10, 3, 12, 34, 56, 0⟩

/-- A current time where the day subtraction stays in the month. -/
def c7goodNow : PyDateTime := ⟨2026, 10, 20, 12, 0, 0, 0⟩

/-- A row whose `last_seen` equals the cutoff exactly. -/
def c7rowAtCutoff : SeenRow :=
  ⟨"traffic", "snap2", "2026-10-13T00:00:00+00:00", "2026-10-13T00:00:00+00:00", false⟩

/-- A row one microsecond older than the cutoff. -/
def c7rowOlder : SeenRow :=
  ⟨"traffic", "snap3", "2026-10-12T23:59:59.999999+00:00",
   "2026-10-12T23:59:59.999999+00:00", true⟩

/-- A connected store holding the two boundary rows. -/
def c7goodStore : SeenStore :=
  ⟨some [("traffic.A", c7rowAtCutoff), ("traffic.B", c7rowOlder)]⟩

/-- A tracked record with no `published_date` at all. -/
def c9recNoDate : PyRec := [("traffic_report_status", PyVal.vstr "ACTIVE")]

/-- One tracked identity whose record has no timestamp. -/
def c9tracked : Tracked := [("I1", c9recNoDate)]

/-- A tracked record published in 2020 (far older than any cutoff). -/
def c9oldRec : PyRec :=
  [("traffic_report_status", PyVal.vstr "ACTIVE"),
   ("published_date", PyVal.vstr "2020-01-01T00:00:00Z")]

/-- Traffic record with numeric-zero coordinates and a usable id. -/
def c8rec : PyRec :=
  [("latitude", PyVal.vnum 0), ("longitude", PyVal.vnum 0), ("event_id", PyVal.vstr "X")]

/-- The specification's reading of a usable coordinate: a value that is
present and parses as a number (zero included). -/
def specParseableCoord (v : PyVal) : Prop := pyFloatOk v = true

/-- The code's reading: the value must also be Python-truthy, which numeric
zero and the empty string are not. -/
def usableCoordVal (v : PyVal) : Prop := v.truthy = true ∧ pyFloatOk v = true

set_option maxRecDepth 1000000

theorem stringMk_data (s : String) : String.mk s.data = s := by
  cases s
  rfl

theorem lookup_cons_if {α : Type} (k a : String) (b : α) (l : List (String × α)) :
    List.lookup k ((a, b) :: l) = if k == a then some b else List.lookup k l := by
  rw [List.lookup_cons]
  cases h : (k == a) <;> simp [h]

theorem lookup_eq_none_of_not_mem_keys {α : Type} (l : List (String × α)) (k : String)
    (h : k ∉ l.map Prod.fst) : List.lookup k l = none := by
  induction l with
  | nil => rfl
  | cons a t ih =>
    obtain ⟨k', v'⟩ := a
    simp only [List.map_cons, List.mem_cons] at h
    push_neg at h
    rw [lookup_cons_if, if_neg (by simpa using h.1)]
    exact ih h.2

theorem lookup_mem {α : Type} {l : List (String × α)} {k : String} {v : α}
    (h : List.lookup k l = some v) : (k, v) ∈ l := by
  induction l with
  | nil => simp [List.lookup] at h
  | cons a t ih =>
    obtain ⟨k', v'⟩ := a
    rw [lookup_cons_if] at h
    by_cases hb : k = k'
    · subst hb
      simp at h
      subst h
      exact List.mem_cons_self _ _
    · rw [if_neg (by simpa using hb)] at h
      exact List.mem_cons_of_mem _ (ih h)

theorem keys_not_mem_filter {α : Type} (t : List (String × α)) (pred : String × α → Bool)
    (k : String) (h : k ∉ t.map Prod.fst) : k ∉ (t.filter pred).map Prod.fst := by
  intro hmem
  apply h
  obtain ⟨p, hp, hk⟩ := List.mem_map.mp hmem
  exact List.mem_map.mpr ⟨p, (List.mem_filter.mp hp).1, hk⟩

theorem lookup_dictSet_self {α : Type} (l : List (String × α)) (k : String) (v : α) :
    List.lookup k (dictSet l k v) = some v := by
  induction l with
  | nil => simp [dictSet, lookup_cons_if]
  | cons a t ih =>
    obtain ⟨k', v'⟩ := a
    by_cases h : k' = k
    · subst h
      simp [dictSet, lookup_cons_if]
    · simp only [dictSet]
      rw [if_neg (by simpa using h), lookup_cons_if, if_neg (by simpa using Ne.symm h)]
      exact ih

theorem lookup_dictSet_ne {α : Type} (l : List (String × α)) (k k' : String) (v : α)
    (h : k' ≠ k) : List.lookup k' (dictSet l k v) = List.lookup k' l := by
  induction l with
  | nil => simp [dictSet, lookup_cons_if, h]
  | cons a t ih =>
    obtain ⟨k1, v1⟩ := a
    by_cases h1 : k1 = k
    · subst h1
      have hset : dictSet ((k1, v1) :: t) k1 v = (k1, v) :: t := by simp [dictSet]
      rw [hset, lookup_cons_if, lookup_cons_if, if_neg (by simpa using h),
        if_neg (by simpa using h)]
    · simp only [dictSet]
      rw [if_neg (by simpa using h1), lookup_cons_if, lookup_cons_if]
      by_cases hb : k' = k1
      · simp [hb]
      · rw [if_neg (by simpa using hb), if_neg (by simpa using hb)]
        exact ih

theorem lookup_updateAll_of_none (cur : Tracked) (base : Tracked) (k : String)
    (h : List.lookup k cur = none) :
    List.lookup k (updateAll base cur) = List.lookup k base := by
  induction cur generalizing base with
  | nil => rfl
  | cons a rest ih =>
    obtain ⟨k1, v1⟩ := a
    rw [lookup_cons_if] at h
    by_cases hb : k = k1
    · simp [hb] at h
    · rw [if_neg (by simpa using hb)] at h
      simp only [updateAll]
      rw [ih _ h]
      exact lookup_dictSet_ne base k1 k v1 hb

theorem lookup_updateAll_of_some (cur : Tracked) (base : Tracked) (k : String) (v : PyRec)
    (nd : (cur.map Prod.fst).Nodup) (h : List.lookup k cur = some v) :
    List.lookup k (updateAll base cur) = some v := by
  induction cur generalizing base with
  | nil => simp [List.lookup] at h
  | cons a rest ih =>
    obtain ⟨k1, v1⟩ := a
    simp only [List.map_cons, List.nodup_cons] at nd
    rw [lookup_cons_if] at h
    by_cases hb : k = k1
    · subst hb
      rw [if_pos (by simp)] at h
      simp only [Option.some.injEq] at h
      subst h
      simp only [updateAll]
      rw [lookup_updateAll_of_none rest _ k (lookup_eq_none_of_not_mem_keys rest k nd.1)]
      exact lookup_dictSet_self base k v1
    · rw [if_neg (by simpa using hb)] at h
      simp only [updateAll]
      exact ih _ nd.2 h

theorem filter_key_eq_nil {α : Type} (t : List (String × α)) (id : String)
    (q : String × α → Bool) (h : id ∉ t.map Prod.fst) :
    t.filter (fun p => p.1 == id && q p) = [] := by
  induction t with
  | nil => rfl
  | cons a rest ih =>
    obtain ⟨k1, v1⟩ := a
    simp only [List.map_cons, List.mem_cons] at h
    push_neg at h
    rw [List.filter_cons]
    have hf : ((k1, v1).1 == id && q (k1, v1)) = false := by
      simp only [Bool.and_eq_false_iff]
      left
      exact beq_eq_false_iff_ne.mpr (Ne.symm h.1)
    rw [hf]
    simp only [Bool.false_eq_true, if_false]
    exact ih h.2

theorem filter_key_nodup {α : Type} (t : List (String × α))
    (nd : (t.map Prod.fst).Nodup) (id : String) (v : α) (hm : (id, v) ∈ t)
    (q : String × α → Bool) :
    t.filter (fun p => p.1 == id && q p) = if q (id, v) then [(id, v)] else [] := by
  induction t with
  | nil => simp at hm
  | cons a rest ih =>
    obtain ⟨k1, v1⟩ := a
    simp only [List.map_cons, List.nodup_cons] at nd
    rcases List.mem_cons.mp hm with hhead | htail
    · have hk : id = k1 := congrArg Prod.fst hhead
      have hv : v = v1 := congrArg Prod.snd hhead
      subst hk
      subst hv
      rw [List.filter_cons]
      have hnil := filter_key_eq_nil rest id q nd.1
      by_cases hq : q (id, v) = true
      · simp [hq, hnil]
      · have hq' : q (id, v) = false := by simpa using hq
        simp [hq', hnil]
    · have hk1 : k1 ≠ id := by
        intro he
        subst he
        exact nd.1 (List.mem_map.mpr ⟨(k1, v), htail, rfl⟩)
      rw [List.filter_cons]
      have hf : ((k1, v1).1 == id && q (k1, v1)) = false := by
        simp only [Bool.and_eq_false_iff]
        left
        exact beq_eq_false_iff_ne.mpr hk1
      rw [hf]
      simp only [Bool.false_eq_true, if_false]
      exact ih nd.2 htail

theorem lookup_filter_nodup {α : Type} (t : List (String × α))
    (nd : (t.map Prod.fst).Nodup) (id : String) (v : α) (hm : (id, v) ∈ t)
    (pred : String × α → Bool) :
    List.lookup id (t.filter pred) = if pred (id, v) then some v else none := by
  induction t with
  | nil => simp at hm
  | cons a rest ih =>
    obtain ⟨k1, v1⟩ := a
    simp only [List.map_cons, List.nodup_cons] at nd
    rcases List.mem_cons.mp hm with hhead | htail
    · have hk : id = k1 := congrArg Prod.fst hhead
      have hv : v = v1 := congrArg Prod.snd hhead
      subst hk
      subst hv
      rw [List.filter_cons]
      cases hq : pred (id, v) with
      | true =>
        rw [if_pos rfl, if_pos rfl, lookup_cons_if, if_pos (by simp)]
      | false =>
        rw [if_neg (by simp), if_neg (by simp)]
        exact lookup_eq_none_of_not_mem_keys _ id (keys_not_mem_filter rest pred id nd.1)
    · have hk1 : k1 ≠ id := by
        intro he
        subst he
        exact nd.1 (List.mem_map.mpr ⟨(k1, v), htail, rfl⟩)
      rw [List.filter_cons]
      cases hp : pred (k1, v1) with
      | true =>
        rw [if_pos rfl, lookup_cons_if, if_neg (by simpa using Ne.symm hk1)]
        exact ih nd.2 htail
      | false =>
        rw [if_neg (by simp)]
        exact ih nd.2 htail

theorem data_mk (l : List Char) : (String.mk l).data = l := rfl

theorem quote_data : ("\"" : String).data = [Char.ofNat 34] := rfl

theorem escCharsWith_nil (f : Char → List Char) : escCharsWith f [] = [] := rfl

theorem escCharsWith_cons (f : Char → List Char) (c : Char) (l : List Char) :
    escCharsWith f (c :: l) = f c ++ escCharsWith f l := rfl

theorem pLit_append (l r : List Char) : pLit l (l ++ r) = some r := by
  induction l with
  | nil => rfl
  | cons c t ih => simp [pLit, ih]

theorem pLit_ne_head (a : List Char) (c d : Char) (h : c ≠ d) (t1 t2 : List Char) :
    pLit (a ++ c :: t1) (a ++ d :: t2) = none := by
  induction a with
  | nil => simp [pLit, h]
  | cons x xs ih => simp [pLit, ih]

theorem pQuoted_noquote (v r : List Char) (h : Char.ofNat 34 ∉ v) :
    pQuoted (v ++ Char.ofNat 34 :: r) = some (v, r) := by
  induction v with
  | nil => simp [pQuoted]
  | cons c t ih =>
    simp only [List.mem_cons] at h
    push_neg at h
    rw [List.cons_append]
    simp only [pQuoted]
    rw [if_neg (by simpa using Ne.symm h.1), ih h.2]

theorem pText_nolt (v r : List Char) (h : '<' ∉ v) :
    pText (v ++ '<' :: r) = some (v, '<' :: r) := by
  induction v with
  | nil => simp [pText]
  | cons c t ih =>
    simp only [List.mem_cons] at h
    push_neg at h
    rw [List.cons_append]
    simp only [pText]
    rw [if_neg (by simpa using Ne.symm h.1), ih h.2]

theorem noquote_escAttrib (l : List Char) :
    Char.ofNat 34 ∉ escCharsWith etEscAttribChar l := by
  induction l with
  | nil => simp [escCharsWith_nil]
  | cons c t ih =>
    rw [escCharsWith_cons]
    intro hmem
    rcases List.mem_append.mp hmem with h1 | h2
    · unfold etEscAttribChar at h1
      split_ifs at h1 with hA hB hC hD hE hF hG
      · exact absurd h1 (by decide)
      · exact absurd h1 (by decide)
      · exact absurd h1 (by decide)
      · exact absurd h1 (by decide)
      · exact absurd h1 (by decide)
      · exact absurd h1 (by decide)
      · exact absurd h1 (by decide)
      · simp only [List.mem_singleton] at h1
        exact hD (by rw [← h1]; simp)
    · exact ih h2

theorem nolt_escCdata (l : List Char) :
    '<' ∉ escCharsWith etEscCdataChar l := by
  induction l with
  | nil => simp [escCharsWith_nil]
  | cons c t ih =>
    rw [escCharsWith_cons]
    intro hmem
    rcases List.mem_append.mp hmem with h1 | h2
    · unfold etEscCdataChar at h1
      split_ifs at h1 with hA hB hC
      · exact absurd h1 (by decide)
      · exact absurd h1 (by decide)
      · exact absurd h1 (by decide)
      · simp only [List.mem_singleton] at h1
        exact hB (by rw [← h1]; simp)
    · exact ih h2

theorem escAttrib_step (c : Char) (rest : List Char) (fuel : Nat) :
    unescAux (fuel + 1) (etEscAttribChar c ++ rest) = (unescAux fuel rest).map (c :: ·) := by
  unfold etEscAttribChar
  split_ifs with h1 h2 h3 h4 h5 h6 h7
  · have hc := eq_of_beq h1
    subst hc
    rfl
  · have hc := eq_of_beq h2
    subst hc
    rfl
  · have hc := eq_of_beq h3
    subst hc
    rfl
  · have hc := eq_of_beq h4
    subst hc
    rfl
  · have hc := eq_of_beq h5
    subst hc
    rfl
  · have hc := eq_of_beq h6
    subst hc
    rfl
  · have hc := eq_of_beq h7
    subst hc
    rfl
  · show unescAux (fuel + 1) (c :: rest) = _
    simp only [unescAux]
    rw [if_neg h1]

theorem escCdata_step (c : Char) (rest : List Char) (fuel : Nat) :
    unescAux (fuel + 1) (etEscCdataChar c ++ rest) = (unescAux fuel rest).map (c :: ·) := by
  unfold etEscCdataChar
  split_ifs with h1 h2 h3
  · have hc := eq_of_beq h1
    subst hc
    rfl
  · have hc := eq_of_beq h2
    subst hc
    rfl
  · have hc := eq_of_beq h3
    subst hc
    rfl
  · show unescAux (fuel + 1) (c :: rest) = _
    simp only [unescAux]
    rw [if_neg h1]

theorem escAttribChar_ne_nil (c : Char) : etEscAttribChar c ≠ [] := by
  unfold etEscAttribChar
  split_ifs <;> simp

theorem escCdataChar_ne_nil (c : Char) : etEscCdataChar c ≠ [] := by
  unfold etEscCdataChar
  split_ifs <;> simp

theorem unescAux_escAttrib (l : List Char) :
    ∀ fuel : Nat, (escCharsWith etEscAttribChar l).length ≤ fuel →
      unescAux fuel (escCharsWith etEscAttribChar l) = some l := by
  induction l with
  | nil => intro fuel _; cases fuel <;> rfl
  | cons c t ih =>
    intro fuel hf
    rw [escCharsWith_cons] at hf ⊢
    rw [List.length_append] at hf
    have hpos := List.length_pos.mpr (escAttribChar_ne_nil c)
    obtain ⟨f', rfl⟩ : ∃ f', fuel = f' + 1 := ⟨fuel - 1, by omega⟩
    rw [escAttrib_step, ih f' (by omega)]
    rfl

theorem unescAux_escCdata (l : List Char) :
    ∀ fuel : Nat, (escCharsWith etEscCdataChar l).length ≤ fuel →
      unescAux fuel (escCharsWith etEscCdataChar l) = some l := by
  induction l with
  | nil => intro fuel _; cases fuel <;> rfl
  | cons c t ih =>
    intro fuel hf
    rw [escCharsWith_cons] at hf ⊢
    rw [List.length_append] at hf
    have hpos := List.length_pos.mpr (escCdataChar_ne_nil c)
    obtain ⟨f', rfl⟩ : ∃ f', fuel = f' + 1 := ⟨fuel - 1, by omega⟩
    rw [escCdata_step, ih f' (by omega)]
    rfl

theorem unesc_escAttrib (l : List Char) :
    xmlUnescapeL (escCharsWith etEscAttribChar l) = some l :=
  unescAux_escAttrib l _ (Nat.le_refl _)

theorem unesc_escCdata (l : List Char) :
    xmlUnescapeL (escCharsWith etEscCdataChar l) = some l :=
  unescAux_escCdata l _ (Nat.le_refl _)

theorem pAttr_chunk (lit v : String) (rest : List Char) :
    pAttr lit (lit.data ++ Char.ofNat 34 ::
      (escCharsWith etEscAttribChar v.data ++ Char.ofNat 34 :: rest)) = some (v, rest) := by
  have h0 : lit.data ++ Char.ofNat 34 ::
      (escCharsWith etEscAttribChar v.data ++ Char.ofNat 34 :: rest) =
      (lit.data ++ [Char.ofNat 34]) ++
      (escCharsWith etEscAttribChar v.data ++ Char.ofNat 34 :: rest) := by
    simp
  have h1 : pLit (lit.data ++ [Char.ofNat 34])
      (lit.data ++ Char.ofNat 34 ::
        (escCharsWith etEscAttribChar v.data ++ Char.ofNat 34 :: rest)) =
      some (escCharsWith etEscAttribChar v.data ++ Char.ofNat 34 :: rest) := by
    rw [h0, pLit_append]
  have h2 : pQuoted (escCharsWith etEscAttribChar v.data ++ Char.ofNat 34 :: rest) =
      some (escCharsWith etEscAttribChar v.data, rest) :=
    pQuoted_noquote _ _ (noquote_escAttrib v.data)
  simp [pAttr, h1, h2, unesc_escAttrib, stringMk_data]
theorem pAttrs_chunks (lits : List String) :
    ∀ (vals : List String) (rest : List Char), lits.length = vals.length →
    pAttrs lits (chunksData (lits.zip vals) rest) = some (vals, rest) := by
  induction lits with
  | nil =>
    intro vals rest h
    cases vals with
    | nil => rfl
    | cons v vs => simp at h
  | cons l ls ih =>
    intro vals rest h
    cases vals with
    | nil => simp at h
    | cons v vs =>
      rw [List.zip_cons_cons, chunksData]
      simp only [pAttrs]
      rw [pAttr_chunk]
      show (match pAttrs ls (chunksData (ls.zip vs) rest) with
            | some (vs2, s2) => some (v :: vs2, s2)
            | none => none) = some (v :: vs, rest)
      rw [ih vs rest (by simpa using h)]

theorem remarks_close_concat :
    "</remarks>".data ++ "</detail></event>".data = "</remarks></detail></event>".data := rfl

theorem parseCotRemarks_empty :
    parseCotRemarks (" />".data ++
      ("<remarks />".data ++ "</detail></event>".data)) = some "" := rfl

theorem parseCotRemarks_text (rem : String) :
    parseCotRemarks (" />".data ++
      (("<remarks>".data ++
        (escCharsWith etEscCdataChar rem.data ++ "</remarks>".data)) ++
       "</detail></event>".data)) = some rem := by
  have h1 : pLit " />".data (" />".data ++
      (("<remarks>".data ++ (escCharsWith etEscCdataChar rem.data ++ "</remarks>".data)) ++
       "</detail></event>".data)) =
      some (("<remarks>".data ++ (escCharsWith etEscCdataChar rem.data ++ "</remarks>".data)) ++
       "</detail></event>".data) := pLit_append _ _
  have e1 : "<remarks />".data = "<remarks".data ++ ' ' :: "/>".data := rfl
  have e2 : ∀ X : List Char, "<remarks>".data ++ X = "<remarks".data ++ '>' :: X :=
    fun _ => rfl
  have h2 : pLit "<remarks />".data
      (("<remarks>".data ++ (escCharsWith etEscCdataChar rem.data ++ "</remarks>".data)) ++
       "</detail></event>".data) = none := by
    rw [List.append_assoc, e2, e1]
    exact pLit_ne_head _ _ _ (by decide) _ _
  have e3 : "</remarks></detail></event>".data =
      '<' :: "/remarks></detail></event>".data := rfl
  have h3 : pLit "<remarks>".data
      (("<remarks>".data ++ (escCharsWith etEscCdataChar rem.data ++ "</remarks>".data)) ++
       "</detail></event>".data) =
      some (escCharsWith etEscCdataChar rem.data ++ "</remarks></detail></event>".data) := by
    rw [List.append_assoc, List.append_assoc, remarks_close_concat]
    exact pLit_append _ _
  have h4 : pText (escCharsWith etEscCdataChar rem.data ++ "</remarks></detail></event>".data) =
      some (escCharsWith etEscCdataChar rem.data, "</remarks></detail></event>".data) := by
    rw [e3, pText_nolt _ _ (nolt_escCdata rem.data)]
  have h5 : pLit "</remarks></detail></event>".data "</remarks></detail></event>".data
      = some [] := by
    have := pLit_append "</remarks></detail></event>".data []
    rwa [List.append_nil] at this
  simp only [parseCotRemarks, h1, h2, h3, h4, h5, unesc_escCdata, List.isEmpty_nil,
    stringMk_data, if_true]

set_option maxHeartbeats 1600000 in
theorem parseCot_renderCot (e : CotEvent) :
    parseCot (renderCot e) =
      some ⟨"2.0", e.uid, e.cotType,
        isoformatUTC (epochUsecToDateTime e.timeUsec),
        isoformatUTC (epochUsecToDateTime e.timeUsec),
        isoformatUTC (epochUsecToDateTime e.staleUsec), e.how, e.latS, e.lonS,
        e.callsign, e.linkUrl, e.remarksText⟩ := by
  have hlen : cotAttrLits.length = (cotAttrVals e).length := by
    simp only [cotAttrLits, cotAttrVals, List.length_cons, List.length_nil]
  have hattrs : parseCotAttrs (renderCot e) =
      some (cotAttrVals e,
        " />".data ++
        ((if e.remarksText == "" then "<remarks />".data
          else "<remarks>".data ++
            (escCharsWith etEscCdataChar e.remarksText.data ++ "</remarks>".data)) ++
         "</detail></event>".data)) := by
    unfold parseCotAttrs renderCot
    rw [data_mk]
    unfold renderCotData
    exact pAttrs_chunks cotAttrLits (cotAttrVals e) _ hlen
  unfold parseCot
  rw [hattrs]
  simp only [cotAttrVals]
  by_cases hrm : (e.remarksText == "") = true
  · rw [if_pos hrm]
    have : e.remarksText = "" := by simpa using hrm
    rw [parseCotRemarks_empty, this]
  · rw [if_neg hrm]
    rw [parseCotRemarks_text e.remarksText]

/-- C4 (corrected): every serialized event document re-parses as
well-formed markup of the expected shape, but the recovered attribute and
text content is `xml_escape` of the original (the builder escapes once and
the serializer escapes again), so text containing any of the five reserved
characters does NOT round-trip to the original. -/
theorem cot_document_reparse
    (uid latS lonS callsign remarks link cotType how : String) (stale now : Nat) :
    parseCot (renderCot
      (build_incident_cot uid latS lonS callsign remarks link cotType stale how now)) =
      some ⟨"2.0", xml_escape uid, cotType,
        isoformatUTC (epochUsecToDateTime now),
        isoformatUTC (epochUsecToDateTime now),
        isoformatUTC (epochUsecToDateTime (now + stale * 60000000)),
        how, latS, lonS, xml_escape callsign, xml_escape link, xml_escape remarks⟩ := by
  rw [parseCot_renderCot]
  rfl

/-- C4 counterexample: a callsign containing `&` is recovered from the wire
document as its singly-escaped form, not the original text. -/
theorem reparse_recovers_escaped_not_original :
    (parseCot (renderCot
        (build_incident_cot "u" "0.0" "0.0" "A&B" "r" "l" "b-e-i" 10 "m-g" 0))).map
        ParsedCot.callsign = some "A&amp;B" ∧
    ("A&amp;B" : String) ≠ "A&B" := by
  constructor
  · rw [parseCot_renderCot]
    rfl
  · decide

theorem closuresLoop_spec (current : Tracked) (ft : String) (now : Nat) (t : Tracked) :
    closuresLoop current ft now t =
      ((t.filter fun p => should_send_closure_cot (some p.2) (List.lookup p.1 current)).map
        (fun p => build_incident_closure_cot p.2 ft (get_closure_reason p.2) now),
       t.filter fun p => !should_send_closure_cot (some p.2) (List.lookup p.1 current)) := by
  induction t with
  | nil => rfl
  | cons hd tl ih =>
    obtain ⟨k, prev⟩ := hd
    simp only [closuresLoop, ih, List.filter_cons]
    by_cases hc : should_send_closure_cot (some prev) (List.lookup k current) = true
    · simp [hc]
    · have hc' : should_send_closure_cot (some prev) (List.lookup k current) = false := by
        simpa using hc
      simp [hc']

/-- C2 (amended): over one `check_for_closures` call with unique keys and
string statuses, (a) the closure list is exactly one event per triggered
tracked entry, in tracking order; (b) a previously ACTIVE identity absent
from the batch triggers exactly one closure and leaves tracking; (c) a
previously ACTIVE identity now ARCHIVED triggers exactly one closure but is
re-tracked with the current (ARCHIVED) record by the trailing update pass,
so it does NOT leave tracking; (d) a previously ARCHIVED identity absent
from the batch triggers nothing and stays tracked unchanged. -/
theorem check_for_closures_cases
    (t current : Tracked) (ft : String) (now : Nat) (id : String) (prev : PyRec)
    (ndt : (t.map Prod.fst).Nodup) (ndc : (current.map Prod.fst).Nodup)
    (hm : (id, prev) ∈ t)
    (_hwt : ∀ p ∈ t, statusWF p.2) (_hwc : ∀ p ∈ current, statusWF p.2) :
    ((check_for_closures t current ft now).1 =
       (t.filter fun p => should_send_closure_cot (some p.2) (List.lookup p.1 current)).map
         (fun p => build_incident_closure_cot p.2 ft (get_closure_reason p.2) now)) ∧
    (upperStatus prev = "ACTIVE" → List.lookup id current = none →
       (t.filter fun p =>
          p.1 == id && should_send_closure_cot (some p.2) (List.lookup p.1 current)).length = 1 ∧
       List.lookup id (check_for_closures t current ft now).2 = none) ∧
    (∀ cur, upperStatus prev = "ACTIVE" → List.lookup id current = some cur →
       upperStatus cur = "ARCHIVED" →
       (t.filter fun p =>
          p.1 == id && should_send_closure_cot (some p.2) (List.lookup p.1 current)).length = 1 ∧
       List.lookup id (check_for_closures t current ft now).2 = some cur) ∧
    (upperStatus prev = "ARCHIVED" → List.lookup id current = none →
       (t.filter fun p =>
          p.1 == id && should_send_closure_cot (some p.2) (List.lookup p.1 current)).length = 0 ∧
       List.lookup id (check_for_closures t current ft now).2 = some prev) := by
  refine ⟨?_, ?_, ?_, ?_⟩
  · simp [check_for_closures, closuresLoop_spec]
  · intro hst hlk
    have htrig : should_send_closure_cot (some prev) (List.lookup id current) = true := by
      simp [should_send_closure_cot, hlk, hst]
    constructor
    · rw [filter_key_nodup t ndt id prev hm
        (fun p => should_send_closure_cot (some p.2) (List.lookup p.1 current))]
      simp [htrig]
    · simp only [check_for_closures, closuresLoop_spec]
      rw [lookup_updateAll_of_none current _ id hlk]
      rw [lookup_filter_nodup t ndt id prev hm
        (fun p => !should_send_closure_cot (some p.2) (List.lookup p.1 current))]
      simp [htrig]
  · intro cur hst hlk hcur
    have htrig : should_send_closure_cot (some prev) (List.lookup id current) = true := by
      simp [should_send_closure_cot, hlk, hst, hcur]
    constructor
    · rw [filter_key_nodup t ndt id prev hm
        (fun p => should_send_closure_cot (some p.2) (List.lookup p.1 current))]
      simp [htrig]
    · simp only [check_for_closures, closuresLoop_spec]
      exact lookup_updateAll_of_some current _ id cur ndc hlk
  · intro hst hlk
    have htrig : should_send_closure_cot (some prev) (List.lookup id current) = false := by
      simp [should_send_closure_cot, hlk, hst]
    constructor
    · rw [filter_key_nodup t ndt id prev hm
        (fun p => should_send_closure_cot (some p.2) (List.lookup p.1 current))]
      simp [htrig]
    · simp only [check_for_closures, closuresLoop_spec]
      rw [lookup_updateAll_of_none current _ id hlk]
      rw [lookup_filter_nodup t ndt id prev hm
        (fun p => !should_send_closure_cot (some p.2) (List.lookup p.1 current))]
      simp [htrig]

/-- C2 counterexample: previous ACTIVE, current ARCHIVED — one closure is
emitted, but the identity is still tracked after the call (with the
ARCHIVED record), where the claim says it is removed from tracking. -/
theorem check_for_closures_archived_still_tracked :
    (check_for_closures c2tracked c2current "traffic" 0).1.length = 1 ∧
    List.lookup "I1" (check_for_closures c2tracked c2current "traffic" 0).2 =
      some c2curArchived := by
  exact ⟨by decide, by decide⟩

/-- C2 witness: the ACTIVE-then-absent case at a concrete state. -/
theorem check_for_closures_cases_witness :
    (c2tracked.filter fun p =>
       p.1 == "I1" && should_send_closure_cot (some p.2) (List.lookup p.1 ([] : Tracked))).length
      = 1 ∧
    List.lookup "I1" (check_for_closures c2tracked [] "traffic" 0).2 = none :=
  (check_for_closures_cases c2tracked [] "traffic" 0 "I1" c2prevActive
    (by decide) (by decide) (by decide) (by decide) (by decide)).2.1
    (by decide) (by decide)

theorem lookup_append_left {α : Type} (l1 l2 : List (String × α)) (k : String) (v : α)
    (h : List.lookup k l1 = some v) : List.lookup k (l1 ++ l2) = some v := by
  induction l1 with
  | nil => simp [List.lookup] at h
  | cons a t ih =>
    obtain ⟨k1, v1⟩ := a
    rw [lookup_cons_if] at h
    rw [List.cons_append, lookup_cons_if]
    by_cases hb : k = k1
    · rw [if_pos (by simpa using hb)] at h ⊢
      exact h
    · rw [if_neg (by simpa using hb)] at h ⊢
      exact ih h

theorem lookup_append_right {α : Type} (l1 l2 : List (String × α)) (k : String)
    (h : List.lookup k l1 = none) : List.lookup k (l1 ++ l2) = List.lookup k l2 := by
  induction l1 with
  | nil => rfl
  | cons a t ih =>
    obtain ⟨k1, v1⟩ := a
    rw [lookup_cons_if] at h
    rw [List.cons_append, lookup_cons_if]
    by_cases hb : k = k1
    · rw [if_pos (by simpa using hb)] at h
      exact absurd h (by simp)
    · rw [if_neg (by simpa using hb)] at h ⊢
      exact ih h

theorem lookup_map_upd (tbl : SeenTable) (iid : String) (f : SeenRow → SeenRow) :
    List.lookup iid (tbl.map fun p => if p.1 == iid then (p.1, f p.2) else p) =
      (List.lookup iid tbl).map f := by
  induction tbl with
  | nil => rfl
  | cons a t ih =>
    obtain ⟨k1, v1⟩ := a
    rw [List.map_cons]
    by_cases hb : k1 = iid
    · subst hb
      simp [lookup_cons_if]
    · simp only [beq_eq_false_iff_ne.mpr hb, Bool.false_eq_true, if_false]
      rw [lookup_cons_if, lookup_cons_if, if_neg (by simpa using Ne.symm hb),
        if_neg (by simpa using Ne.symm hb)]
      exact ih

theorem lookup_map_upd_ne (tbl : SeenTable) (iid k : String) (f : SeenRow → SeenRow)
    (h : k ≠ iid) :
    List.lookup k (tbl.map fun p => if p.1 == iid then (p.1, f p.2) else p) =
      List.lookup k tbl := by
  induction tbl with
  | nil => rfl
  | cons a t ih =>
    obtain ⟨k1, v1⟩ := a
    rw [List.map_cons]
    by_cases hb : k1 = iid
    · subst hb
      simp only [beq_self_eq_true, if_true]
      rw [lookup_cons_if, lookup_cons_if, if_neg (by simpa using h),
        if_neg (by simpa using h)]
      exact ih
    · simp only [beq_eq_false_iff_ne.mpr hb, Bool.false_eq_true, if_false]
      rw [lookup_cons_if, lookup_cons_if]
      by_cases hk : k = k1
      · rw [if_pos (by simpa using hk), if_pos (by simpa using hk)]
      · rw [if_neg (by simpa using hk), if_neg (by simpa using hk)]
        exact ih

theorem markSeenTable_absent (tbl : SeenTable) (ft : String) (d : PyRec) (flag : Bool)
    (now : String) (h : List.lookup (generate_incident_id ft d) tbl = none) :
    markSeenTable tbl ft d flag now =
      tbl ++ [(generate_incident_id ft d, ⟨ft, jsonDumpRec d, now, now, flag⟩)] := by
  simp only [markSeenTable, h]

theorem markSeenTable_present (tbl : SeenTable) (ft : String) (d : PyRec) (flag : Bool)
    (now : String) (row : SeenRow)
    (h : List.lookup (generate_incident_id ft d) tbl = some row) :
    markSeenTable tbl ft d flag now =
      tbl.map fun p =>
        if p.1 == generate_incident_id ft d then
          (p.1, ⟨p.2.feed_type, p.2.incident_data, p.2.first_seen, now, flag⟩)
        else p := by
  simp only [markSeenTable, h]

/-- C6: `mark_incident_seen` is an upsert keyed by the generated identity.
Absent: a fresh row with `first_seen = last_seen = now`, the raw snapshot,
and the delivered flag is inserted.  Present: only `last_seen` and
`cot_sent` change — the stored snapshot, `first_seen` and `feed_type` are
untouched no matter which record (of the same identity) or flag the call
passes.  Rows under other identities are never touched. -/
theorem mark_incident_seen_upsert
    (tbl : SeenTable) (ft : String) (d d2 : PyRec) (flag flag2 : Bool)
    (now now2 : String) :
    (List.lookup (generate_incident_id ft d) tbl = none →
       List.lookup (generate_incident_id ft d) (markSeenTable tbl ft d flag now) =
         some ⟨ft, jsonDumpRec d, now, now, flag⟩) ∧
    (∀ row, List.lookup (generate_incident_id ft d) tbl = some row →
       generate_incident_id ft d2 = generate_incident_id ft d →
       List.lookup (generate_incident_id ft d) (markSeenTable tbl ft d2 flag2 now2) =
         some ⟨row.feed_type, row.incident_data, row.first_seen, now2, flag2⟩) ∧
    (∀ k, k ≠ generate_incident_id ft d →
       List.lookup k (markSeenTable tbl ft d flag now) = List.lookup k tbl) := by
  refine ⟨?_, ?_, ?_⟩
  · intro habs
    rw [markSeenTable_absent tbl ft d flag now habs,
      lookup_append_right tbl _ _ habs, lookup_cons_if, if_pos (by simp)]
  · intro row hrow heq
    have hrow2 : List.lookup (generate_incident_id ft d2) tbl = some row := by
      rw [heq]; exact hrow
    rw [markSeenTable_present tbl ft d2 flag2 now2 row hrow2, heq,
      lookup_map_upd tbl (generate_incident_id ft d)
        (fun r => ⟨r.feed_type, r.incident_data, r.first_seen, now2, flag2⟩), hrow]
    rfl
  · intro k hk
    cases hlk : List.lookup (generate_incident_id ft d) tbl with
    | some row =>
      rw [markSeenTable_present tbl ft d flag now row hlk]
      exact lookup_map_upd_ne tbl (generate_incident_id ft d) k
        (fun r => ⟨r.feed_type, r.incident_data, r.first_seen, now, flag⟩) hk
    | none =>
      rw [markSeenTable_absent tbl ft d flag now hlk]
      cases hlk2 : List.lookup k tbl with
      | some v => exact lookup_append_left tbl _ k v hlk2
      | none =>
        rw [lookup_append_right tbl _ k hlk2, lookup_cons_if,
          if_neg (by simpa using hk)]
        simp [List.lookup, hlk2]

/-- C6 witness: insert then update at a concrete identity. -/
theorem mark_incident_seen_upsert_witness :
    List.lookup (generate_incident_id "traffic" c3trafficRec)
        (markSeenTable [] "traffic" c3trafficRec false "t0") =
      some ⟨"traffic", jsonDumpRec c3trafficRec, "t0", "t0", false⟩ ∧
    List.lookup (generate_incident_id "traffic" c3trafficRec)
        (markSeenTable (markSeenTable [] "traffic" c3trafficRec false "t0")
          "traffic" c3trafficRec true "t1") =
      some ⟨"traffic", jsonDumpRec c3trafficRec, "t0", "t1", true⟩ := by
  constructor
  · exact (mark_incident_seen_upsert [] "traffic" c3trafficRec c3trafficRec false false
      "t0" "t0").1 (by decide)
  · have h := (mark_incident_seen_upsert (markSeenTable [] "traffic" c3trafficRec false "t0")
      "traffic" c3trafficRec c3trafficRec true true "t1" "t1").2.1
      ⟨"traffic", jsonDumpRec c3trafficRec, "t0", "t0", false⟩ (by decide) rfl
    exact h

theorem build_closure_stale (d : PyRec) (ft r : String) (now : Nat) :
    (build_incident_closure_cot d ft r now).staleUsec =
      (build_incident_closure_cot d ft r now).timeUsec + 60000000 := by
  simp [build_incident_closure_cot, build_incident_cot]

theorem closuresLoop_fst_shape (current : Tracked) (ft : String) (now : Nat) :
    ∀ (t : Tracked) (e : CotEvent), e ∈ (closuresLoop current ft now t).1 →
      ∃ p : String × PyRec,
        e = build_incident_closure_cot p.2 ft (get_closure_reason p.2) now := by
  intro t
  induction t with
  | nil => intro e he; simp [closuresLoop] at he
  | cons hd tl ih =>
    obtain ⟨k, prev⟩ := hd
    intro e he
    simp only [closuresLoop] at he
    by_cases hc : should_send_closure_cot (some prev) (List.lookup k current) = true
    · rw [if_pos hc] at he
      rcases List.mem_cons.mp he with h1 | h2
      · exact ⟨(k, prev), h1⟩
      · exact ih e h2
    · rw [if_neg hc] at he
      exact ih e he

/-- C5: a closure-flavored encode always forces the stale window to one
minute: `build_incident_closure_cot` passes `stale_minutes=1` (it exposes
no stale parameter at all), so every closure event produced by
`check_for_closures` has `stale - time` equal to exactly one minute. -/
theorem closure_events_stale_one_minute
    (t current : Tracked) (ft : String) (now : Nat) (e : CotEvent)
    (he : e ∈ (check_for_closures t current ft now).1) :
    e.staleUsec = e.timeUsec + 60000000 := by
  have hsh : e ∈ (closuresLoop current ft now t).1 := by
    simpa [check_for_closures] using he
  obtain ⟨p, hp⟩ := closuresLoop_fst_shape current ft now t e hsh
  rw [hp]
  exact build_closure_stale p.2 ft (get_closure_reason p.2) now

/-- C5 witness: the closure produced when the tracked ACTIVE incident
disappears from an empty batch has a one-minute stale window. -/
theorem closure_events_stale_one_minute_witness :
    (build_incident_closure_cot c2prevActive "fire"
        (get_closure_reason c2prevActive) 5).staleUsec =
      (build_incident_closure_cot c2prevActive "fire"
        (get_closure_reason c2prevActive) 5).timeUsec + 60000000 :=
  closure_events_stale_one_minute c2tracked [] "fire" 5 _ (by decide)

/-- C10: with no live connection, `is_incident_seen` reports `false` for
every record and `cleanup_old_incidents` returns 0, while
`mark_incident_seen` raises `RuntimeError` and stores nothing;
`disconnect` puts the store in exactly this state. -/
theorem seenstore_disconnected_behavior :
    ∀ (ft : String) (d : PyRec) (flag : Bool) (iso : String) (now : PyDateTime)
      (days : Nat) (st : SeenStore),
    is_incident_seen ⟨none⟩ ft d = false ∧
    seen_cleanup_old_incidents ⟨none⟩ now days = Except.ok (⟨none⟩, 0) ∧
    mark_incident_seen ⟨none⟩ ft d flag iso = Except.error "Database not connected" ∧
    (seen_disconnect st).conn = none := by
  intro ft d flag iso now days st
  exact ⟨rfl, rfl, rfl, rfl⟩

/-- C7: the sweep crashes in the first week of a month: with the current
time 2026-10-03 and `days_old = 7`, `cutoff.replace(day=-4)` raises
`ValueError` before anything is deleted, even though the store holds a
record months older than any cutoff.  On a day where the subtraction
stays in the month the boundary behaves as specified: a row exactly at
the cutoff survives, a row one microsecond older is deleted — but the
cutoff is midnight-based, not `now - days`. -/
theorem seen_cleanup_month_boundary_bug :
    seen_cleanup_old_incidents c7store c7now 7 =
      Except.error "day is out of range for month" ∧
    textLt "2026-09-01T00:00:00+00:00" "2026-09-26T12:34:56+00:00" = true ∧
    seen_cleanup_old_incidents c7goodStore c7goodNow 7 =
      Except.ok (⟨some [("traffic.A", c7rowAtCutoff)]⟩, 1) := by
  refine ⟨rfl, by decide, ?_⟩
  rfl

theorem length_filter_add_length_filter_not {α : Type} (l : List α) (p : α → Bool) :
    (l.filter p).length + (l.filter (fun a => !p a)).length = l.length := by
  induction l with
  | nil => rfl
  | cons a t ih =>
    rw [List.filter_cons, List.filter_cons]
    by_cases hp : p a = true
    · rw [if_pos hp, if_neg (by simp [hp])]
      simp only [List.length_cons]
      omega
    · have hp' : p a = false := by simpa using hp
      rw [if_neg (by simp [hp']), if_pos (by simp [hp'])]
      simp only [List.length_cons]
      omega

-- C9 characterization

theorem lifecycle_cleanup_characterization
    (t : Tracked) (now : Int) (hours : Nat) (id : String) (rec : PyRec)
    (hm : (id, rec) ∈ t) :
    ((pyGetD rec "published_date" (PyVal.vstr "")).truthy = false →
       (id, rec) ∈ (lifecycle_cleanup_old_incidents t now hours).1) ∧
    (∀ s, pyGetD rec "published_date" (PyVal.vstr "") = PyVal.vstr s → s ≠ "" →
       (∀ dt off, fromisoformat (pyReplaceZ s) = some (dt, some off) →
          (awareEpochUsec dt off < now - (hours * 3600000000 : Nat) →
             (id, rec) ∉ (lifecycle_cleanup_old_incidents t now hours).1) ∧
          (¬ awareEpochUsec dt off < now - (hours * 3600000000 : Nat) →
             (id, rec) ∈ (lifecycle_cleanup_old_incidents t now hours).1)) ∧
       (∀ dt, fromisoformat (pyReplaceZ s) = some (dt, none) →
          (id, rec) ∉ (lifecycle_cleanup_old_incidents t now hours).1) ∧
       (fromisoformat (pyReplaceZ s) = none →
          (id, rec) ∉ (lifecycle_cleanup_old_incidents t now hours).1)) ∧
    (∀ n, pyGetD rec "published_date" (PyVal.vstr "") = PyVal.vnum n → n ≠ 0 →
       (id, rec) ∉ (lifecycle_cleanup_old_incidents t now hours).1) ∧
    ((lifecycle_cleanup_old_incidents t now hours).2 +
       (lifecycle_cleanup_old_incidents t now hours).1.length = t.length) := by
  refine ⟨?_, ?_, ?_, ?_⟩
  · intro hf
    have hrem : lifecycleRemoveP now hours rec = false := by
      simp [lifecycleRemoveP, hf]
    simp [lifecycle_cleanup_old_incidents, List.mem_filter, hm, hrem]
  · intro s hs hne
    have htr : (PyVal.vstr s).truthy = true := by
      simp [PyVal.truthy, hne]
    refine ⟨?_, ?_, ?_⟩
    · intro dt off hiso
      constructor
      · intro hlt
        have hrem : lifecycleRemoveP now hours rec = true := by
          simp only [lifecycleRemoveP, hs, hiso, htr, if_true]
          exact decide_eq_true hlt
        simp [lifecycle_cleanup_old_incidents, List.mem_filter, hrem]
      · intro hge
        have hrem : lifecycleRemoveP now hours rec = false := by
          simp only [lifecycleRemoveP, hs, hiso, htr, if_true]
          exact decide_eq_false hge
        simp [lifecycle_cleanup_old_incidents, List.mem_filter, hm, hrem]
    · intro dt hiso
      have hrem : lifecycleRemoveP now hours rec = true := by
        simp only [lifecycleRemoveP, hs, hiso, htr, if_true]
      simp [lifecycle_cleanup_old_incidents, List.mem_filter, hrem]
    · intro hiso
      have hrem : lifecycleRemoveP now hours rec = true := by
        simp only [lifecycleRemoveP, hs, hiso, htr, if_true]
      simp [lifecycle_cleanup_old_incidents, List.mem_filter, hrem]
  · intro n hn hnz
    have hrem : lifecycleRemoveP now hours rec = true := by
      have htr : (PyVal.vnum n).truthy = true := by
        simp [PyVal.truthy, hnz]
      simp only [lifecycleRemoveP, hn, htr, if_true]
    simp [lifecycle_cleanup_old_incidents, List.mem_filter, hrem]
  · simp only [lifecycle_cleanup_old_incidents]
    exact length_filter_add_length_filter_not t (fun p => lifecycleRemoveP now hours p.2)

theorem lifecycle_cleanup_keeps_missing_timestamp :
    lifecycle_cleanup_old_incidents c9tracked 1760000000000000 24 = (c9tracked, 0) ∧
    (pyGetD c9recNoDate "published_date" (PyVal.vstr "")).truthy = false := by
  exact ⟨rfl, rfl⟩

theorem lifecycle_cleanup_witness :
    ("I2", c9oldRec) ∉
      (lifecycle_cleanup_old_incidents [("I2", c9oldRec)] 1760000000000000 24).1 := by
  have h := lifecycle_cleanup_characterization [("I2", c9oldRec)] 1760000000000000 24
    "I2" c9oldRec (by decide)
  exact ((((h.2.1 "2020-01-01T00:00:00Z" (by decide) (by decide)).1
    ⟨2020, 1, 1, 0, 0, 0, 0⟩ 0 (by decide)).1) (by decide))

/-- C8 (amended): validation passes iff both coordinate values are truthy
and float-parseable and the identifier value is truthy; in particular a
numeric-zero coordinate (falsy) is rejected even though it parses.
Records failing validation produce no store write and no send. -/
theorem validate_characterization (d : PyRec) :
    (validate_incident_traffic d = true ↔
       usableCoordVal (pyOr (pyGet d "latitude") (pyGet d "lat")) ∧
       usableCoordVal (pyOr (pyGet d "longitude") (pyGet d "lon")) ∧
       (pyOr (pyGet d "event_id") (pyGet d "id")).truthy = true) ∧
    (validate_incident_fire d = true ↔
       usableCoordVal (pyGet d "latitude") ∧ usableCoordVal (pyGet d "longitude") ∧
       (pyGet d "traffic_report_id").truthy = true) ∧
    (validate_incident_traffic d = false → ∀ tbl running stale now iso,
       process_incident_traffic tbl running stale now iso d = (tbl, [])) ∧
    (validate_incident_fire d = false → ∀ tbl running stale now iso,
       process_incident_fire tbl running stale now iso d = (tbl, [])) := by
  refine ⟨?_, ?_, ?_, ?_⟩
  · simp only [validate_incident_traffic, usableCoordVal]
    cases h1 : (pyOr (pyGet d "latitude") (pyGet d "lat")).truthy <;>
      cases h2 : (pyOr (pyGet d "longitude") (pyGet d "lon")).truthy <;>
      cases h3 : pyFloatOk (pyOr (pyGet d "latitude") (pyGet d "lat")) <;>
      cases h4 : pyFloatOk (pyOr (pyGet d "longitude") (pyGet d "lon")) <;>
      simp [h1, h2, h3, h4]
  · simp only [validate_incident_fire, usableCoordVal]
    cases h1 : (pyGet d "latitude").truthy <;>
      cases h2 : (pyGet d "longitude").truthy <;>
      cases h3 : pyFloatOk (pyGet d "latitude") <;>
      cases h4 : pyFloatOk (pyGet d "longitude") <;>
      simp [h1, h2, h3, h4]
  · intro hv tbl running stale now iso
    simp [process_incident_traffic, hv]
  · intro hv tbl running stale now iso
    simp [process_incident_fire, hv]

/-- C8 counterexample: numeric-zero coordinates parse as numbers and the
record has a usable identifier, yet traffic validation rejects it. -/
theorem zero_coordinates_rejected :
    specParseableCoord (pyGet c8rec "latitude") ∧
    specParseableCoord (pyGet c8rec "longitude") ∧
    (pyGet c8rec "event_id").truthy = true ∧
    validate_incident_traffic c8rec = false := by
  refine ⟨?_, ?_, by decide, by decide⟩
  · unfold specParseableCoord
    decide
  · unfold specParseableCoord
    decide

/-- C8 witness: the rejected zero-coordinate record is neither stored nor
forwarded. -/
theorem validate_characterization_witness :
    process_incident_traffic [] true 10 0 "t" c8rec = ([], []) :=
  (validate_characterization c8rec).2.2.1 (by decide) [] true 10 0 "t"

/-- C1 counterexample: the end-to-end scenario record fails traffic
validation (it has no `event_id`/`id`), and the identity the store would
generate is the hash fallback, not `traffic.T1`. -/
theorem c1_scenario_fails_validation :
    validate_incident_traffic c1rec = false ∧
    generate_incident_id "traffic" c1rec ≠ "traffic.T1" := by
  exact ⟨by decide, by decide⟩

/-- C1 (amended): the scenario record is rejected by validation, its
deduplication identity is the md5 fallback `traffic.1e052ec644f8`, and the
event the encoder builds for it carries callsign `APD: CRASH`, remarks
starting `CRASH @ Main St`, and uid `austin.traffic.T1`. -/
theorem c1_scenario_actual_behavior :
    validate_incident_traffic c1rec = false ∧
    generate_incident_id "traffic" c1rec = "traffic.1e052ec644f8" ∧
    (build_traffic_incident_cot c1rec 10 0).callsign = "APD: CRASH" ∧
    "CRASH @ Main St".data.isPrefixOf (build_traffic_incident_cot c1rec 10 0).remarksText.data
      = true ∧
    (build_traffic_incident_cot c1rec 10 0).uid = "austin.traffic.T1" := by
  exact ⟨by decide, by decide, by decide, by decide, by decide⟩

theorem process_traffic_actions (tbl : SeenTable) (running : Bool)
    (stale now : Nat) (iso : String) (d : PyRec) (e : CotEvent) :
    PollAction.sendClosure e ∉ (process_incident_traffic tbl running stale now iso d).2 := by
  intro hmem
  by_cases hv : validate_incident_traffic d = true
  · simp only [process_incident_traffic, hv, Bool.not_true, Bool.false_eq_true, if_false] at hmem
    cases running <;> simp at hmem
  · have hv' : validate_incident_traffic d = false := by simpa using hv
    simp [process_incident_traffic, hv'] at hmem

theorem traffic_fold_no_closure (batch : List PyRec) (running : Bool)
    (stale now : Nat) (iso : String) :
    ∀ (tbl : SeenTable) (acts : List PollAction) (e : CotEvent),
    PollAction.sendClosure e ∈
      (batch.foldl
        (fun acc d =>
          let p := process_incident_traffic acc.1 running stale now iso d
          (p.1, acc.2 ++ p.2))
        (tbl, acts)).2 →
    PollAction.sendClosure e ∈ acts := by
  induction batch with
  | nil => intro tbl acts e h; simpa using h
  | cons d rest ih =>
    intro tbl acts e h
    rw [List.foldl_cons] at h
    have h2 := ih _ _ e h
    rcases List.mem_append.mp h2 with h3 | h4
    · exact h3
    · exact absurd h4 (process_traffic_actions tbl running stale now iso d e)

/-- C3 (amended): only the fire poller runs the closure pass.  For fire,
the cycle's effect trace is the per-record sends, then (while the sender
runs) one `sendClosure` per event returned by `check_for_closures` on the
fetched batch, then the lifecycle cleanup, and the poll-counter write
strictly last.  The traffic poller owns no lifecycle manager: its trace
never contains a closure send, whatever the batch or state. -/
theorem poll_closures_fire_only
    (tbl : SeenTable) (lifecycle : Tracked) (running : Bool) (batch : List PyRec)
    (stale now : Nat) (iso : String)
    (_hwb : ∀ d ∈ batch, statusWF d) (_hwi : ∀ d ∈ batch, recIdWF d)
    (_hwl : ∀ p ∈ lifecycle, statusWF p.2) :
    ((fire_poll_incidents tbl lifecycle running batch stale now iso).2.2 =
       (batch.foldl
         (fun acc d =>
           let p := process_incident_fire acc.1 running stale now iso d
           (p.1, acc.2 ++ p.2))
         (tbl, ([] : List PollAction))).2 ++
       (if running then
          (check_for_closures lifecycle (fire_current_incidents batch) "fire" now).1.map
            PollAction.sendClosure
        else []) ++
       [PollAction.lifecycleCleanup,
        PollAction.recordPoll batch.length
          (batch.length +
            (if running then
               (check_for_closures lifecycle (fire_current_incidents batch) "fire" now).1.length
             else 0))]) ∧
    (running = true →
       ∀ e ∈ (check_for_closures lifecycle (fire_current_incidents batch) "fire" now).1,
         PollAction.sendClosure e ∈
           (fire_poll_incidents tbl lifecycle running batch stale now iso).2.2) ∧
    (∃ pre, (fire_poll_incidents tbl lifecycle running batch stale now iso).2.2 =
       pre ++ [PollAction.recordPoll batch.length
         (batch.length +
           (if running then
              (check_for_closures lifecycle (fire_current_incidents batch) "fire" now).1.length
            else 0))]) ∧
    (∀ e : CotEvent,
       PollAction.sendClosure e ∉
         (traffic_poll_incidents tbl running batch stale now iso).2) := by
  refine ⟨rfl, ?_, ?_, ?_⟩
  · intro hrun e he
    simp only [fire_poll_incidents, hrun, if_true]
    refine List.mem_append.mpr (.inl (List.mem_append.mpr (.inr ?_)))
    exact List.mem_map.mpr ⟨e, he, rfl⟩
  · refine ⟨(batch.foldl
      (fun acc d =>
        let p := process_incident_fire acc.1 running stale now iso d
        (p.1, acc.2 ++ p.2))
      (tbl, ([] : List PollAction))).2 ++
      (if running then
         (check_for_closures lifecycle (fire_current_incidents batch) "fire" now).1.map
           PollAction.sendClosure
       else []) ++ [PollAction.lifecycleCleanup], ?_⟩
    simp [fire_poll_incidents]
  · intro e hmem
    simp only [traffic_poll_incidents] at hmem
    rcases List.mem_append.mp hmem with h1 | h2
    · have := traffic_fold_no_closure batch running stale now iso tbl [] e h1
      simp at this
    · simp at h2

/-- C3 counterexample: after one cycle that fetched an ACTIVE incident and
one cycle where it is gone, the fire poller has emitted a closure send and
the traffic poller has emitted none in either cycle. -/
theorem traffic_poll_never_sends_closures :
    c3fire2.2.2.any isClosureAction = true ∧
    (c3traffic1.2 ++ c3traffic2.2).any isClosureAction = false := by
  exact ⟨by decide, by decide⟩

/-- C3 witness: at a concrete cycle, the traffic poller's trace carries no
closure send. -/
theorem poll_closures_fire_only_witness :
    PollAction.sendClosure
        (build_incident_closure_cot c3trafficRec "traffic" "INCIDENT CLOSED" 0) ∉
      (traffic_poll_incidents [] true [c3trafficRec] 10 1760000000000000 "t0").2 :=
  (poll_closures_fire_only [] [] true [c3trafficRec] 10 1760000000000000 "t0"
    (by decide) (by decide) (by decide)).2.2.2
    (build_incident_closure_cot c3trafficRec "traffic" "INCIDENT CLOSED" 0)
